import Mathlib

/-!
libsigrok: the Lascar EL-USB driver (hardware/lascar-el-usb/api.c).

A shallow embedding of the driver entry points of `api.c`.  Pointers that may
be NULL are `Option`s, C `int`s are `Int`/`Nat`, `unsigned char`s are naturals
reduced modulo 256 where they are read, and every call that leaves the file
(libusb, the session bus, the event-source multiplexer, `protocol.c`) takes its
outcome from an explicit environment record and leaves its effect in an
explicit `World`.
-/

namespace Lascar

/-! ## Return codes, status values, packets (libsigrok.h) -/

/-- Return code `SR_OK` of libsigrok.h. -/
def SR_OK : Int := 0

/-- Return code `SR_ERR` of libsigrok.h: the generic, unspecified failure. -/
def SR_ERR : Int := -1

/-- Return code `SR_ERR_MALLOC` of libsigrok.h. -/
def SR_ERR_MALLOC : Int := -2

/-- Return code `SR_ERR_ARG` of libsigrok.h. -/
def SR_ERR_ARG : Int := -3

/-- Modelled from the spec: the device status enumeration of libsigrok.h, which
is not among the sources; the three values the driver assigns or tests. -/
inductive sr_status where
  | SR_ST_INACTIVE
  | SR_ST_ACTIVE
  | SR_ST_STOPPING
  deriving DecidableEq, Repr

/-- Modelled from the spec: the datafeed packet types of libsigrok.h
(`{type: HEADER|LOGIC|ANALOG|END, payload}`), not among the sources. -/
inductive sr_packet_type where
  | SR_DF_HEADER
  | SR_DF_END
  | SR_DF_LOGIC
  | SR_DF_ANALOG
  deriving DecidableEq, Repr

/-- The header payload, `struct sr_datafeed_header`; only `feed_version` is
written by the driver. -/
structure sr_datafeed_header where
  feed_version : Int
  deriving DecidableEq, Repr

/-- The packet handed to `sr_session_send`: its type and the header its
`payload` pointer refers to at the time of the call. -/
structure sr_datafeed_packet where
  type : sr_packet_type
  payload : sr_datafeed_header
  deriving DecidableEq, Repr

/-! ## The little-endian binary32 decoder -/

/-- The `mpn` view of glib's `GFloatIEEE754` union: three bit-fields of
1, 8 and 23 bits.  A value stored in a bit-field is reduced to the field's
width. -/
structure GFloatIEEE754 where
  sign : Nat
  biased_exponent : Nat
  mantissa : Nat
  deriving DecidableEq, Repr

/-- Byte `i` of an `unsigned char` buffer. -/
def byteAt (buf : List Nat) (i : Nat) : Nat := buf.getD i 0 % 256

/-- `binary32_le_to_float` (api.c 279-289): the three bit-field stores.  The
returned C `float` is the value whose IEEE-754 fields are these. -/
def binary32_le_to_float (buf : List Nat) : GFloatIEEE754 :=
  { sign := (if byteAt buf 3 &&& 0x80 ≠ 0 then 1 else 0) % 2
    biased_exponent := ((byteAt buf 3 <<< 1) ||| (byteAt buf 2 >>> 7)) % 2 ^ 8
    mantissa :=
      (byteAt buf 0 ||| (byteAt buf 1 <<< 8) ||| ((byteAt buf 2 &&& 0x7f) <<< 16)) % 2 ^ 23 }

/-- The 32-bit word of an IEEE-754 binary32 value with the given fields:
sign in bit 31, biased exponent in bits 30..23, mantissa in bits 22..0. -/
def binary32_word (f : GFloatIEEE754) : Nat :=
  f.sign * 2 ^ 31 + f.biased_exponent * 2 ^ 23 + f.mantissa

/-- Re-encoding, following the spec's words (the sources hold no encoder): the
little-endian byte quadruple of the binary32 word of the three fields. -/
def binary32_le_encode (f : GFloatIEEE754) : List Nat :=
  [binary32_word f % 256, binary32_word f / 2 ^ 8 % 256,
   binary32_word f / 2 ^ 16 % 256, binary32_word f / 2 ^ 24 % 256]

/-! ## Device instance, driver context and the world outside the file -/

/-- The `struct sr_usb_dev_inst` of an instance: bus, address and the libusb
device handle, NULL (`none`) while the transport is not open. -/
structure sr_usb_dev_inst where
  bus : Nat
  address : Nat
  devhdl : Option Nat
  deriving DecidableEq, Repr

/-- The log formats of the device profiles (protocol.h, not among the
sources).  `LOG_UNSUPPORTED` stands for every value that reaches the
`default:` branch of the switch in `lascar_proc_config`. -/
inductive elusb_logformat where
  | LOG_UNSUPPORTED
  | LOG_TEMP_RH
  | LOG_CO
  deriving DecidableEq, Repr

/-- The fields of `struct dev_context` (protocol.h) that api.c reads or
writes.  `logformat` is `devc->profile->logformat`; `config` is the pointer
returned by `lascar_get_config` with the block it points to; `usbfd` is the
array of registered descriptors up to and including its -1 terminator. -/
structure dev_context where
  cb_data : Nat
  usb : sr_usb_dev_inst
  logformat : elusb_logformat
  config : Option (List Nat)
  sample_size : Int
  temp_unit : Nat
  co_high : GFloatIEEE754
  co_low : GFloatIEEE754
  logged_samples : Nat
  log_size : Nat
  limit_samples : Nat
  usbfd : List Int
  deriving DecidableEq, Repr

/-- A device instance, `struct sr_dev_inst`: its status and its private
driver state `priv` (the `dev_context`). -/
structure sr_dev_inst where
  status : sr_status
  priv : dev_context
  deriving DecidableEq, Repr

/-- The driver state `struct drv_context` behind `di->priv`: the libsigrok
context (its libusb context) and the list of instances. -/
structure drv_context where
  sr_ctx : Nat
  instances : List sr_dev_inst
  deriving DecidableEq, Repr

/-- One registration of the event-source multiplexer, as passed to
`sr_source_add`: descriptor, interest mask, timeout in ms.  The callback is
always `lascar_el_usb_handle_events`, its context the instance. -/
structure source where
  fd : Int
  events : Int
  timeout : Int
  deriving DecidableEq, Repr

/-- Everything the driver functions reach besides the instance they are
given: the driver singleton `di->priv`, the packets delivered through
`sr_session_send` (oldest first, each with the sink it was sent to), the
multiplexer's registrations, the libusb transfer objects (allocated and not yet
freed, and the log of `libusb_free_transfer` calls), the bulk buffers from
`g_try_malloc` still allocated, the libusb device handles that are open, and
the number of configuration blocks given to `g_free`. -/
structure World where
  di_priv : Option drv_context
  session_bus : List (Nat × sr_datafeed_packet)
  sources : List source
  next_xfer : Nat
  xfers_live : List Nat
  xfers_freed : List Nat
  bufs_live : Nat
  usb_handles : List Nat
  config_frees : Nat
  deriving DecidableEq, Repr

/-- Modelled from the spec: `sr_session_send` (session.c, not among the
sources) delivers the packet to the sink; the ordered packet stream is the
list of packets in delivery order. -/
def sr_session_send (w : World) (cb_data : Nat) (packet : sr_datafeed_packet) : World :=
  { w with session_bus := w.session_bus ++ [(cb_data, packet)] }

/-- Modelled from the spec: `sr_source_add` (session.c, not among the sources)
registers (descriptor, interest mask, timeout-ms, callback, context); the same
descriptor may be registered more than once. -/
def sr_source_add (w : World) (fd events timeout : Int) : World :=
  { w with sources := w.sources ++ [{ fd := fd, events := events, timeout := timeout }] }

/-- libusb: `libusb_alloc_transfer` returns a fresh transfer object, or NULL
when `ok` is false. -/
def libusb_alloc_transfer (ok : Bool) (w : World) : Option Nat × World :=
  if ok then
    (some w.next_xfer,
      { w with next_xfer := w.next_xfer + 1, xfers_live := w.xfers_live ++ [w.next_xfer] })
  else (none, w)

/-- libusb: `libusb_free_transfer` releases a transfer object. -/
def libusb_free_transfer (w : World) (xfer : Nat) : World :=
  { w with xfers_live := w.xfers_live.erase xfer, xfers_freed := w.xfers_freed ++ [xfer] }

/-! ## Open and close -/

/-- The outcomes of the two calls `hw_dev_open` makes: `sr_usb_open` (usb.c,
not among the sources) yields the opened handle or fails, and
`libusb_claim_interface` returns 0 or a libusb error code. -/
structure open_env where
  usb_open : Option Nat
  claim : Int
  deriving DecidableEq, Repr

/-- `hw_dev_open` (api.c 150-172).  A successful `sr_usb_open` stores the
handle in `devc->usb->devhdl`. -/
def hw_dev_open (env : open_env) (w : World) (sdi : sr_dev_inst) :
    Int × World × sr_dev_inst :=
  match w.di_priv with
  | none => (SR_ERR, w, sdi)
  | some _ =>
    match env.usb_open with
    | none => (SR_ERR, w, sdi)
    | some hdl =>
      let w1 := { w with usb_handles := w.usb_handles ++ [hdl] }
      let sdi1 := { sdi with priv := { sdi.priv with usb := { sdi.priv.usb with devhdl := some hdl } } }
      if env.claim ≠ 0 then (SR_ERR, w1, sdi1)
      else (env.claim, w1, { sdi1 with status := sr_status.SR_ST_ACTIVE })

/-- `hw_dev_close` (api.c 174-196).  `g_free(devc->config)` leaves the
pointer in place; it is a no-op on NULL. -/
def hw_dev_close (w : World) (sdi : sr_dev_inst) : Int × World × sr_dev_inst :=
  match w.di_priv with
  | none => (SR_ERR, w, sdi)
  | some _ =>
    match sdi.priv.usb.devhdl with
    | none => (SR_OK, w, sdi)
    | some hdl =>
      let w1 := { w with
        usb_handles := w.usb_handles.erase hdl
        config_frees := if sdi.priv.config.isSome then w.config_frees + 1 else w.config_frees }
      (SR_OK, w1,
        { status := sr_status.SR_ST_INACTIVE
          priv := { sdi.priv with usb := { sdi.priv.usb with devhdl := none } } })

/-! ## Acquisition start -/

/-- libusb: the completion status of a transfer. -/
inductive libusb_transfer_status where
  | LIBUSB_TRANSFER_COMPLETED
  | LIBUSB_TRANSFER_ERROR
  | LIBUSB_TRANSFER_TIMED_OUT
  | LIBUSB_TRANSFER_CANCELLED
  | LIBUSB_TRANSFER_STALL
  | LIBUSB_TRANSFER_NO_DEVICE
  | LIBUSB_TRANSFER_OVERFLOW
  deriving DecidableEq, Repr

/-- `mark_xfer` (api.c 262-270): the value the completion callback stores in
`xfer->user_data`. -/
def mark_xfer (status : libusb_transfer_status) : Int :=
  if status = libusb_transfer_status.LIBUSB_TRANSFER_COMPLETED then 1 else -1

/-- One call of `libusb_handle_events_timeout` in the handshake wait: the
completion status of each of the two transfers whose callback it ran. -/
structure poll_round where
  in_done : Option libusb_transfer_status
  out_done : Option libusb_transfer_status
  deriving DecidableEq, Repr

/-- The wait loop of api.c 407-410 over the successive event rounds, from the
current `user_data` of the inbound and the outbound transfer; the result is
the two `user_data` values at loop exit, `none` when the rounds end with a
callback still outstanding. -/
def wait_xfers : List poll_round → Int → Int → Option (Int × Int)
  | [], ud_in, ud_out => if ud_in = 0 ∨ ud_out = 0 then none else some (ud_in, ud_out)
  | r :: rest, ud_in, ud_out =>
    if ud_in = 0 ∨ ud_out = 0 then
      wait_xfers rest
        (match r.in_done with
          | some st => mark_xfer st
          | none => ud_in)
        (match r.out_done with
          | some st => mark_xfer st
          | none => ud_out)
    else some (ud_in, ud_out)

/-- The input flush loop of api.c 382-384 over the outcomes (return code,
bytes transferred) of the successive `libusb_bulk_transfer` reads: `true` when
a read ends the loop, `false` when every listed read returned data. -/
def flush_input : List (Int × Int) → Bool
  | [] => false
  | (rc, ret) :: rest => if rc = 0 ∧ ret > 0 then flush_input rest else true

/-- The outcomes of the calls `hw_dev_acquisition_start` makes, in call order:
`lascar_get_config` (protocol.c; the configuration block or NULL), the two
`libusb_alloc_transfer` calls, the flush reads, the two handshake
submissions, the event rounds of the wait, the inbound transfer's
`actual_length` and buffer at the response check, `libusb_get_pollfds`
(descriptor and event mask of each entry), `g_try_malloc(4096)` and the
submission of the bulk read. -/
structure start_env where
  get_config : Option (List Nat)
  alloc_in : Bool
  alloc_out : Bool
  flush : List (Int × Int)
  submit_in : Int
  submit_out : Int
  rounds : List poll_round
  actual_length : Int
  resp : List Nat
  pollfds : List (Int × Int)
  malloc_buf : Bool
  submit_bulk : Int
  deriving DecidableEq, Repr

/-- `lascar_proc_config` (api.c 291-327), given the result of
`lascar_get_config`. -/
def lascar_proc_config (get_config : Option (List Nat)) (sdi : sr_dev_inst) :
    Int × sr_dev_inst :=
  match get_config with
  | none => (SR_ERR, { sdi with priv := { sdi.priv with config := none } })
  | some config =>
    let devc := { sdi.priv with config := some config }
    let r : Int × dev_context :=
      match devc.logformat with
      | elusb_logformat.LOG_TEMP_RH =>
        let temp_unit := byteAt config 0x2e ||| (byteAt config 0x2f <<< 8)
        (SR_OK, { devc with
          sample_size := 2
          temp_unit := if temp_unit ≠ 0 ∧ temp_unit ≠ 1 then 0 else temp_unit })
      | elusb_logformat.LOG_CO =>
        (SR_OK, { devc with
          sample_size := 2
          co_high := binary32_le_to_float (config.drop 0x24)
          co_low := binary32_le_to_float (config.drop 0x28) })
      | elusb_logformat.LOG_UNSUPPORTED => (SR_ERR_ARG, devc)
    (r.1, { sdi with priv := { r.2 with
      logged_samples := byteAt config 0x1e ||| (byteAt config 0x1f <<< 8) } })

/-- The registration loop of api.c 428-435: one `sr_source_add` per poll
descriptor, at a 100 ms interval. -/
def add_sources (w : World) : List (Int × Int) → World
  | [] => w
  | (fd, events) :: rest => add_sources (sr_source_add w fd events 100) rest

/-- `hw_dev_acquisition_start` (api.c 329-448).  The result is `none` when
the call does not return: the flush loop or the handshake wait outlasts the
outcomes the environment lists.  The three vendor control transfers change
nothing that is modelled. -/
def hw_dev_acquisition_start (env : start_env) (w : World) (sdi : sr_dev_inst)
    (cb_data : Nat) : Option (Int × World × sr_dev_inst) :=
  match w.di_priv with
  | none => some (SR_ERR, w, sdi)
  | some _ =>
    let sdi0 := { sdi with priv := { sdi.priv with cb_data := cb_data } }
    let pc := lascar_proc_config env.get_config sdi0
    let sdi1 := pc.2
    if pc.1 ≠ SR_OK then some (SR_ERR, w, sdi1)
    else
      let header : sr_datafeed_header := { feed_version := 1 }
      let packet : sr_datafeed_packet :=
        { type := sr_packet_type.SR_DF_HEADER, payload := header }
      let w1 := sr_session_send w sdi1.priv.cb_data packet
      if sdi1.priv.logged_samples = 0 then
        some (SR_OK,
          sr_session_send w1 sdi1.priv.cb_data { packet with type := sr_packet_type.SR_DF_END },
          sdi1)
      else
        match libusb_alloc_transfer env.alloc_in w1 with
        | (none, w2) => some (SR_ERR, w2, sdi1)
        | (some xfer_in, w2) =>
          match libusb_alloc_transfer env.alloc_out w2 with
          | (none, w3) => some (SR_ERR, w3, sdi1)
          | (some xfer_out, w3) =>
            if flush_input env.flush = false then none
            else if env.submit_in ≠ 0 then
              some (SR_ERR, libusb_free_transfer (libusb_free_transfer w3 xfer_in) xfer_out, sdi1)
            else if env.submit_out ≠ 0 then
              some (SR_ERR, libusb_free_transfer (libusb_free_transfer w3 xfer_in) xfer_out, sdi1)
            else
              match wait_xfers env.rounds 0 0 with
              | none => none
              | some (in_user_data, _) =>
                if in_user_data ≠ 1 ∨ in_user_data ≠ 1 then
                  some (SR_ERR,
                    libusb_free_transfer (libusb_free_transfer w3 xfer_in) xfer_out, sdi1)
                else if env.actual_length ≠ 3 ∨ byteAt env.resp 0 ≠ 2 then
                  some (SR_ERR,
                    libusb_free_transfer (libusb_free_transfer w3 xfer_in) xfer_out, sdi1)
                else
                  let log_size := byteAt env.resp 1 + (byteAt env.resp 2 <<< 8)
                  let w4 := libusb_free_transfer w3 xfer_out
                  let w5 := add_sources w4 env.pollfds
                  let sdi2 := { sdi1 with priv := { sdi1.priv with
                    log_size := log_size
                    usbfd := env.pollfds.map Prod.fst ++ [-1] } }
                  let w6 := if env.malloc_buf then { w5 with bufs_live := w5.bufs_live + 1 } else w5
                  if env.submit_bulk ≠ 0 then
                    some (SR_ERR,
                      { libusb_free_transfer w6 xfer_in with bufs_live := w5.bufs_live }, sdi2)
                  else some (SR_OK, w6, sdi2)

/-! ## Acquisition stop, configuration, scan -/

/-- `hw_dev_acquisition_stop` (api.c 450-468).  Nothing outside the instance
is touched; the world is returned as it was given. -/
def hw_dev_acquisition_stop (w : World) (sdi : sr_dev_inst) : Int × World × sr_dev_inst :=
  match w.di_priv with
  | none => (SR_ERR, w, sdi)
  | some _ =>
    if sdi.status ≠ sr_status.SR_ST_ACTIVE then (SR_ERR, w, sdi)
    else (SR_OK, w, { sdi with status := sr_status.SR_ST_STOPPING })

/-- Configuration key `SR_CONF_CONN` (libsigrok.h, not among the sources; only
that the keys differ matters). -/
def SR_CONF_CONN : Int := 20000

/-- Configuration key `SR_CONF_LIMIT_SAMPLES` (libsigrok.h, not among the
sources; only that the keys differ matters). -/
def SR_CONF_LIMIT_SAMPLES : Int := 50001

/-- `config_set` (api.c 213-241).  `value` is the `uint64_t` the value pointer
refers to. -/
def config_set (id : Int) (value : Nat) (w : World) (sdi : sr_dev_inst) :
    Int × sr_dev_inst :=
  match w.di_priv with
  | none => (SR_ERR, sdi)
  | some _ =>
    if sdi.status ≠ sr_status.SR_ST_ACTIVE then (SR_ERR, sdi)
    else if id = SR_CONF_LIMIT_SAMPLES then
      (SR_OK, { sdi with priv := { sdi.priv with limit_samples := value } })
    else (SR_ERR_ARG, sdi)

/-- `clear_instances` (api.c 44-69): close every instance, free it, and empty
the driver's instance list.  Every list entry of the model is a non-NULL
instance with a non-NULL `priv`. -/
def clear_instances (w : World) : Int × World :=
  match w.di_priv with
  | none => (SR_OK, w)
  | some drvc =>
    let w1 := drvc.instances.foldl (fun acc sdi => (hw_dev_close acc sdi).2.1) w
    (SR_OK, { w1 with di_priv := some { drvc with instances := [] } })

/-- A scan option, `struct sr_config`: its key and its string value (NULL is
`none`). -/
structure sr_config where
  key : Int
  value : Option (List Char)
  deriving DecidableEq, Repr

/-- The candidate loop of `hw_scan` (api.c 119-130) over the list returned by
`sr_usb_find`, from the current instance list and result list.  `lascar_scan`
(protocol.c, not among the sources) yields the instance of a recognised
device or NULL. -/
def wrap_usb_devices (lascar_scan : Nat → Nat → Option sr_dev_inst) :
    List sr_usb_dev_inst → List sr_dev_inst × List sr_dev_inst →
      List sr_dev_inst × List sr_dev_inst
  | [], acc => acc
  | usb :: rest, (instances, devices) =>
    match lascar_scan usb.bus usb.address with
    | none => wrap_usb_devices lascar_scan rest (instances, devices)
    | some sdi =>
      let sdi1 := { sdi with priv := { sdi.priv with usb := usb } }
      wrap_usb_devices lascar_scan rest (instances ++ [sdi1], devices ++ [sdi1])

/-- `hw_scan` (api.c 86-136).  `usb_find` is `sr_usb_find` (usb.c, not among
the sources): the USB devices matching the connection string.  The result is
the returned list and the world; `none` stands for the NULL dereference of
`drvc->sr_ctx` on a driver that was not initialised. -/
def hw_scan (usb_find : List Char → List sr_usb_dev_inst)
    (lascar_scan : Nat → Nat → Option sr_dev_inst) (w : World) (options : List sr_config) :
    Option (List sr_dev_inst × World) :=
  let w1 := (clear_instances w).2
  let conn := options.foldl (fun c src => if src.key = SR_CONF_CONN then src.value else c) none
  match conn with
  | none => some ([], w1)
  | some conn =>
    match w1.di_priv with
    | none => none
    | some drvc =>
      let r := wrap_usb_devices lascar_scan (usb_find conn) (drvc.instances, [])
      some (r.2, { w1 with di_priv := some { drvc with instances := r.1 } })

/-! ## Sample states -/

/-- `hw_init` (api.c 71-84): allocate the driver context and store it in
`di->priv`; `ok` is the outcome of `g_try_malloc0`. -/
def hw_init (ok : Bool) (sr_ctx : Nat) (w : World) : Int × World :=
  if ok then (SR_OK, { w with di_priv := some { sr_ctx := sr_ctx, instances := [] } })
  else (SR_ERR_MALLOC, w)

/-- A world in which the driver has not been initialised and nothing has
happened yet. -/
def sample_world_uninit : World :=
  { di_priv := none, session_bus := [], sources := [], next_xfer := 0, xfers_live := [],
    xfers_freed := [], bufs_live := 0, usb_handles := [], config_frees := 0 }

/-- The sample world after a successful `hw_init`. -/
def sample_world : World := (hw_init true 1 sample_world_uninit).2

/-- An instance as discovery leaves it: inactive, transport not open. -/
def sample_sdi : sr_dev_inst :=
  { status := sr_status.SR_ST_INACTIVE
    priv :=
      { cb_data := 0
        usb := { bus := 1, address := 4, devhdl := none }
        logformat := elusb_logformat.LOG_TEMP_RH
        config := none
        sample_size := 0
        temp_unit := 0
        co_high := { sign := 0, biased_exponent := 0, mantissa := 0 }
        co_low := { sign := 0, biased_exponent := 0, mantissa := 0 }
        logged_samples := 0
        log_size := 0
        limit_samples := 0
        usbfd := [] } }

/-- A configuration block of 256 bytes whose bytes 0x1e and 0x1f are `lo` and
`hi` and whose other bytes are zero. -/
def sample_config (lo hi : Nat) : List Nat :=
  List.replicate 0x1e 0 ++ [lo, hi] ++ List.replicate (256 - 0x20) 0

/-- A start environment in which every call succeeds: the block reports
`lo + 256 * hi` logged samples, the flush ends at its first read, both
handshake transfers complete in the first event round, the response is
`02 10 00`, and two descriptors are polled. -/
def sample_env (lo hi : Nat) : start_env :=
  { get_config := some (sample_config lo hi)
    alloc_in := true
    alloc_out := true
    flush := [(-7, 0)]
    submit_in := 0
    submit_out := 0
    rounds :=
      [{ in_done := some libusb_transfer_status.LIBUSB_TRANSFER_COMPLETED
         out_done := some libusb_transfer_status.LIBUSB_TRANSFER_COMPLETED }]
    actual_length := 3
    resp := [2, 0x10, 0, 0]
    pollfds := [(5, 1), (6, 4)]
    malloc_buf := true
    submit_bulk := 0 }

/-- The sample environment with one logged sample, except that the outbound
command write times out while the inbound read completes. -/
def sample_env_out_failed : start_env :=
  { sample_env 1 0 with
    rounds :=
      [{ in_done := some libusb_transfer_status.LIBUSB_TRANSFER_COMPLETED
         out_done := some libusb_transfer_status.LIBUSB_TRANSFER_TIMED_OUT }] }

/-- The sample environment with one logged sample, except that the second
`libusb_alloc_transfer` returns NULL. -/
def sample_env_alloc_out_failed : start_env :=
  { sample_env 1 0 with alloc_out := false }

/-- The sample environment with one logged sample, except that submitting the
bulk read fails (`LIBUSB_ERROR_NO_DEVICE`). -/
def sample_env_bulk_failed : start_env :=
  { sample_env 1 0 with submit_bulk := -4 }

/-- An open environment in which both calls succeed, yielding handle 9. -/
def sample_open_env : open_env := { usb_open := some 9, claim := 0 }

/-- The sample instance after a successful open: active, handle 9. -/
def sample_sdi_open : sr_dev_inst :=
  (hw_dev_open sample_open_env sample_world sample_sdi).2.2

/-- The sample world after that open. -/
def sample_world_open : World :=
  (hw_dev_open sample_open_env sample_world sample_sdi).2.1

/-- Three USB candidates on bus 1. -/
def sample_usb_devices : List sr_usb_dev_inst :=
  [{ bus := 1, address := 4, devhdl := none }, { bus := 1, address := 5, devhdl := none },
   { bus := 1, address := 6, devhdl := none }]

/-- A `lascar_scan` that recognises every device except the one at address
5. -/
def sample_lascar_scan (_bus address : Nat) : Option sr_dev_inst :=
  if address = 5 then none else some sample_sdi

/-- A world whose driver holds one open instance from an earlier scan. -/
def sample_world_stale : World :=
  { sample_world_open with
    di_priv := some { sr_ctx := 1, instances := [sample_sdi_open] } }


end Lascar

/-!
The HP 16500B driver (hardware/hp-16500b: api.c, protocol.c, protocol.h).

C strings are lists of characters without their terminating NUL.  The
function-static counter of `hp_16500b_get_next_channel_letter` is threaded
through the functions that reach it.  A read of `supported_cards` outside its
44 entries has no defined result; the functions that can make one return
`none` there.
-/

namespace Hp16500b

/-- Return code `SR_OK` of libsigrok.h. -/
def SR_OK : Int := 0

/-- Return code `SR_ERR` of libsigrok.h. -/
def SR_ERR : Int := -1

/-- Return code `SR_ERR_ARG` of libsigrok.h. -/
def SR_ERR_ARG : Int := -3

/-- Return code `SR_ERR_NA` of libsigrok.h. -/
def SR_ERR_NA : Int := -6

/-- Status value `SR_ST_INACTIVE` of libsigrok.h (not among the sources). -/
def SR_ST_INACTIVE : Int := 10002

/-- Status value `SR_ST_ACTIVE` of libsigrok.h (not among the sources). -/
def SR_ST_ACTIVE : Int := 10003

/-- Channel type `SR_CHANNEL_LOGIC` of libsigrok.h (not among the sources). -/
def SR_CHANNEL_LOGIC : Int := 10000

/-- Channel type `SR_CHANNEL_ANALOG` of libsigrok.h (not among the sources). -/
def SR_CHANNEL_ANALOG : Int := 10001

/-- Configuration key `SR_CONF_CONN` (libsigrok.h; only that keys differ
matters). -/
def SR_CONF_CONN : Int := 20000

/-- Configuration key `SR_CONF_SERIALCOMM` (libsigrok.h). -/
def SR_CONF_SERIALCOMM : Int := 20001

/-- Configuration key `SR_CONF_SAMPLERATE` (libsigrok.h). -/
def SR_CONF_SAMPLERATE : Int := 30000

/-- Configuration key `SR_CONF_LIMIT_SAMPLES` (libsigrok.h). -/
def SR_CONF_LIMIT_SAMPLES : Int := 50001

/-- `MAX_CARDSLOTS` (protocol.h 30). -/
def MAX_CARDSLOTS : Nat := 10

/-- `IDN_STRING` (api.c 26). -/
def IDN_STRING : List Char := "HEWLETT PACKARD,16500B".toList

/-- The NUL character. -/
def NUL : Char := Char.ofNat 0

/-- The C string held by a character buffer: its characters before the first
NUL. -/
def c_str (buf : List Char) : List Char := buf.takeWhile (fun c => c != NUL)

/-- The decimal digit for `d % 10`. -/
def digit_char (d : Nat) : Char := Char.ofNat (48 + d % 10)

/-- The decimal digits of `n` in front of `acc`, most significant first; the
first argument bounds the number of digits. -/
def fmt_d_aux : Nat → Nat → List Char → List Char
  | 0, _, acc => acc
  | fuel + 1, n, acc =>
    if n < 10 then digit_char n :: acc
    else fmt_d_aux fuel (n / 10) (digit_char n :: acc)

/-- The output of printf's `%d` for a non-negative value. -/
def fmt_d (n : Nat) : List Char := fmt_d_aux (n + 1) n []

/-- The output of printf's `%s`; glibc prints `(null)` for a NULL pointer. -/
def fmt_s (str : Option (List Char)) : List Char :=
  match str with
  | some cs => cs
  | none => "(null)".toList

/-- `strncmp` on C strings: zero when the first `n` characters agree (the end
of a string counting as NUL), else negative or positive. -/
def strncmp : List Char → List Char → Nat → Int
  | _, _, 0 => 0
  | [], [], _ + 1 => 0
  | [], _ :: _, _ + 1 => -1
  | _ :: _, [], _ + 1 => 1
  | a :: s1, b :: s2, n + 1 =>
    if a = b then strncmp s1 s2 n else if a.toNat < b.toNat then -1 else 1

/-- The tokens that successive `strtok(..., ",")` calls return: the non-empty
runs of characters between commas. -/
def strtok_all (str : List Char) : List (List Char) :=
  (str.splitOn ',').filter (fun t => t ≠ [])

/-- The value of `a | b` on C ints; written out for the operands 0 and -1 that
the return codes take. -/
def int_or (a b : Int) : Int :=
  if a = 0 then b else if b = 0 then a else if a = -1 ∨ b = -1 then -1 else Int.lor a b

/-! ## The card table (protocol.h) -/

/-- `struct hp_16500b_supported_card` (protocol.h 145-151); `name` is NULL
where the initialiser gives none. -/
structure hp_16500b_supported_card where
  num_channel_groups : Int
  num_channels_per_group : Int
  channel_type : Int
  supported_max_sample_rate : Nat
  name : Option (List Char)
  deriving DecidableEq, Repr

/-- `HP_CARD_NO_INFO` (protocol.h 33). -/
def HP_CARD_NO_INFO : hp_16500b_supported_card :=
  { num_channel_groups := -1, num_channels_per_group := -1, channel_type := -1,
    supported_max_sample_rate := 0, name := none }

/-- `supported_cards` (protocol.h 153-199), indexed by card type. -/
def supported_cards : List hp_16500b_supported_card :=
  [ HP_CARD_NO_INFO,
    { num_channel_groups := 2, num_channels_per_group := 9, channel_type := SR_CHANNEL_LOGIC,
      supported_max_sample_rate := 0, name := some "16515A".toList },
    { num_channel_groups := 2, num_channels_per_group := 9, channel_type := SR_CHANNEL_LOGIC,
      supported_max_sample_rate := 0, name := some "16516A".toList },
    HP_CARD_NO_INFO, HP_CARD_NO_INFO, HP_CARD_NO_INFO, HP_CARD_NO_INFO,
    HP_CARD_NO_INFO, HP_CARD_NO_INFO, HP_CARD_NO_INFO, HP_CARD_NO_INFO,
    HP_CARD_NO_INFO,
    HP_CARD_NO_INFO,
    { num_channel_groups := 2, num_channels_per_group := 1, channel_type := SR_CHANNEL_ANALOG,
      supported_max_sample_rate := 8192, name := some "16532A".toList },
    { num_channel_groups := 2, num_channels_per_group := 1, channel_type := SR_CHANNEL_ANALOG,
      supported_max_sample_rate := 32768, name := some "16533/4A".toList },
    HP_CARD_NO_INFO, HP_CARD_NO_INFO, HP_CARD_NO_INFO,
    HP_CARD_NO_INFO, HP_CARD_NO_INFO, HP_CARD_NO_INFO,
    HP_CARD_NO_INFO,
    HP_CARD_NO_INFO,
    HP_CARD_NO_INFO, HP_CARD_NO_INFO, HP_CARD_NO_INFO, HP_CARD_NO_INFO,
    HP_CARD_NO_INFO, HP_CARD_NO_INFO, HP_CARD_NO_INFO,
    HP_CARD_NO_INFO,
    HP_CARD_NO_INFO,
    { num_channel_groups := 6, num_channels_per_group := 17, channel_type := SR_CHANNEL_LOGIC,
      supported_max_sample_rate := 8192, name := some "16550A_Master".toList },
    { num_channel_groups := 6, num_channels_per_group := 17, channel_type := SR_CHANNEL_LOGIC,
      supported_max_sample_rate := 0, name := some "16550A_Expansion".toList },
    { num_channel_groups := 4, num_channels_per_group := 17, channel_type := SR_CHANNEL_LOGIC,
      supported_max_sample_rate := 1040384, name := some "16555A".toList },
    HP_CARD_NO_INFO, HP_CARD_NO_INFO, HP_CARD_NO_INFO, HP_CARD_NO_INFO, HP_CARD_NO_INFO,
    { num_channel_groups := 2, num_channels_per_group := 9, channel_type := SR_CHANNEL_LOGIC,
      supported_max_sample_rate := 4096, name := some "16540A".toList },
    { num_channel_groups := 1, num_channels_per_group := 50, channel_type := SR_CHANNEL_LOGIC,
      supported_max_sample_rate := 4096, name := some "16541A".toList },
    HP_CARD_NO_INFO,
    HP_CARD_NO_INFO ]

/-- The read `supported_cards[type]`: `none` outside the table. -/
def supported_card (type : Int) : Option hp_16500b_supported_card :=
  if 0 ≤ type then supported_cards.get? type.toNat else none

/-! ## Device instance -/

/-- `struct hp_16500b_card` (protocol.h 201-204); `card_master` is the number
of the slot it points to, `none` for NULL. -/
structure hp_16500b_card where
  type : Int
  card_master : Option Int
  deriving DecidableEq, Repr

/-- A channel, `struct sr_channel`. -/
structure sr_channel where
  index : Nat
  type : Int
  enabled : Bool
  name : List Char
  deriving DecidableEq, Repr

/-- A channel group, `struct sr_channel_group`: its name and its channels. -/
structure sr_channel_group where
  name : List Char
  channels : List sr_channel
  deriving DecidableEq, Repr

/-- `struct dev_context` (protocol.h 261-282): the card slots and the fields
the driver functions read or write; string pointers are NULL (`none`) until
set. -/
structure dev_context where
  cards : List hp_16500b_card
  num_channels : Nat
  seconds_per_div_ps : Nat
  trigger_source : Option (List Char)
  trigger_slope : Option (List Char)
  cur_samplerate : Nat
  capture_ratio : Nat
  limit_samples : Nat
  num_timebases : Nat
  deriving DecidableEq, Repr

/-- The fields of `struct sr_dev_inst` the driver sets up. -/
structure sr_dev_inst where
  status : Int
  vendor : List Char
  model : List Char
  version : List Char
  channels : List sr_channel
  channel_groups : List sr_channel_group
  priv : dev_context
  deriving DecidableEq, Repr

/-- Modelled from the spec: `sr_channel_new` (device.c, not among the
sources) creates the channel and appends it to the instance's channel list
(each channel is created once at discovery). -/
def sr_channel_new (sdi : sr_dev_inst) (index : Nat) (type : Int) (enabled : Bool)
    (name : List Char) : sr_channel × sr_dev_inst :=
  ({ index := index, type := type, enabled := enabled, name := name },
   { sdi with channels := sdi.channels ++
      [{ index := index, type := type, enabled := enabled, name := name }] })

/-! ## Channel construction (protocol.c) -/

/-- The array `prefix_letters[26]` of `hp_16500b_get_next_channel_letter`:
the 25 letters without O, then the NUL that ends the string literal. -/
def prefix_letters : List Char := "ABCDEFGHIJKLMNPQRSTUVWXYZ".toList ++ [NUL]

/-- `hp_16500b_get_next_channel_letter` (protocol.c 314-323), from the
current value of its static counter `a`: the letter returned and the new
counter. -/
def hp_16500b_get_next_channel_letter (a : Nat) : Char × Nat :=
  if a > 25 then (NUL, a) else (prefix_letters.getD a NUL, a + 1)

/-- The channel loop of `hp_16500b_process_card` (protocol.c 260-278) for
group `i`: `count` iterations from index `j`, on the instance and the group's
channel list (newest first). -/
def add_channels (entry : hp_16500b_supported_card) (ch_letter : Char) (i : Nat) :
    Nat → Nat → sr_dev_inst × List sr_channel → sr_dev_inst × List sr_channel
  | 0, _, st => st
  | count + 1, j, (sdi, channels) =>
    if entry.channel_type = SR_CHANNEL_LOGIC then
      let ch_name := c_str ([ch_letter] ++ fmt_d (i + 1) ++ ['['] ++ fmt_d j ++ [']'])
      let r := sr_channel_new sdi sdi.priv.num_channels SR_CHANNEL_LOGIC true ch_name
      add_channels entry ch_letter i count (j + 1)
        ({ r.2 with priv := { r.2.priv with num_channels := sdi.priv.num_channels + 1 } },
         r.1 :: channels)
    else if entry.channel_type = SR_CHANNEL_ANALOG then
      let ch_name := c_str (['C', 'H'] ++ fmt_d i)
      let r := sr_channel_new sdi sdi.priv.num_channels SR_CHANNEL_ANALOG true ch_name
      add_channels entry ch_letter i count (j + 1)
        ({ r.2 with priv := { r.2.priv with num_channels := sdi.priv.num_channels + 1 } },
         r.1 :: channels)
    else add_channels entry ch_letter i count (j + 1) (sdi, channels)

/-- The group loop of `hp_16500b_process_card` (protocol.c 245-283): `count`
iterations from group index `i`. -/
def add_groups (entry : hp_16500b_supported_card) (ch_letter : Char) :
    Nat → Nat → sr_dev_inst → sr_dev_inst
  | 0, _, sdi => sdi
  | count + 1, i, sdi =>
    if entry.channel_type = SR_CHANNEL_LOGIC then
      let cg_name := c_str (fmt_s entry.name ++ ['_'] ++ [ch_letter] ++ fmt_d (i + 1))
      let r := add_channels entry ch_letter i entry.num_channels_per_group.toNat 0 (sdi, [])
      add_groups entry ch_letter count (i + 1)
        { r.1 with channel_groups := r.1.channel_groups ++
            [{ name := cg_name, channels := r.2.reverse }] }
    else if entry.channel_type = SR_CHANNEL_ANALOG then
      let cg_name := c_str (fmt_s entry.name ++ ['_', 'C', 'H'] ++ fmt_d i)
      let r := add_channels entry ch_letter i entry.num_channels_per_group.toNat 0 (sdi, [])
      add_groups entry ch_letter count (i + 1)
        { r.1 with channel_groups := r.1.channel_groups ++
            [{ name := cg_name, channels := r.2.reverse }] }
    else sdi

/-- `hp_16500b_process_card` (protocol.c 231-288), from the letter counter:
the return code, the new counter and the instance; `none` when the card type
is outside `supported_cards`. -/
def hp_16500b_process_card (a : Nat) (sdi : sr_dev_inst) (card : hp_16500b_card) :
    Option (Int × Nat × sr_dev_inst) :=
  match supported_card card.type with
  | none => none
  | some entry =>
    if entry.num_channel_groups ≠ -1 then
      let l := hp_16500b_get_next_channel_letter a
      some (SR_OK, l.2, add_groups entry l.1 entry.num_channel_groups.toNat 0 sdi)
    else some (SR_OK, a, sdi)

/-! ## The cardcage response (protocol.c) -/

/-- The slot loop of `hp_16500b_process_cardcage` (protocol.c 218-226):
`count` iterations from slot `a`, with `half` = i/2.  `sr_atoi` (strutil.c,
not among the sources) yields the parsed value, or `none` when it does not
return `SR_OK`; its failure code is `SR_ERR`. -/
def cardcage_slots (sr_atoi : List Char → Option Int) (tokens : List (List Char))
    (half : Nat) : Nat → Nat → List hp_16500b_card → Int × List hp_16500b_card
  | 0, _, cards => (SR_OK, cards)
  | count + 1, a, cards =>
    match sr_atoi (tokens.getD a []) with
    | none => (SR_ERR, cards)
    | some type =>
      let cards1 := cards.set a { cards.getD a { type := 0, card_master := none } with
        type := type }
      match sr_atoi (tokens.getD (a + half) []) with
      | none => (SR_ERR, cards1)
      | some card_master_pos =>
        cardcage_slots sr_atoi tokens half count (a + 1)
          (cards1.set a { cards1.getD a { type := 0, card_master := none } with
            card_master := some card_master_pos })

/-- `hp_16500b_process_cardcage` (protocol.c 183-229) on the response left in
the `card_cage` buffer by the `:CARDCAGE?` exchange: at most 20 tokens are
kept. -/
def hp_16500b_process_cardcage (sr_atoi : List Char → Option Int) (card_cage : List Char)
    (cards : List hp_16500b_card) : Int × List hp_16500b_card :=
  let tokens := (strtok_all card_cage).take 20
  let i := tokens.length
  cardcage_slots sr_atoi tokens (i / 2) (i / 2) 0 cards

/-- The slot loop of `hp_16500b_get_metadata` (protocol.c 150-154); the
return code of `hp_16500b_process_card` is not looked at. -/
def process_cards : List hp_16500b_card → Nat → sr_dev_inst → Option (Nat × sr_dev_inst)
  | [], a, sdi => some (a, sdi)
  | card :: rest, a, sdi =>
    match hp_16500b_process_card a sdi card with
    | none => none
    | some r => process_cards rest r.2.1 r.2.2

/-- `hp_16500b_get_metadata` (protocol.c 127-160), from the letter counter
and the cardcage response: the new counter and the instance.  Both structs
come from `g_malloc0`, so every field not set is zero or NULL; the return
code of `hp_16500b_process_cardcage` is not looked at.  There are 36
timebases. -/
def hp_16500b_get_metadata (sr_atoi : List Char → Option Int) (a : Nat)
    (card_cage : List Char) : Option (Nat × sr_dev_inst) :=
  let devc : dev_context :=
    { cards := List.replicate MAX_CARDSLOTS { type := 0, card_master := none }
      num_channels := 0
      seconds_per_div_ps := 0
      trigger_source := none
      trigger_slope := none
      cur_samplerate := 0
      capture_ratio := 0
      limit_samples := 0
      num_timebases := 0 }
  let sdi : sr_dev_inst :=
    { status := 0
      vendor := "HEWLETT PACKARD".toList
      model := "16500B".toList
      version := "1.00".toList
      channels := []
      channel_groups := []
      priv := devc }
  let cards := (hp_16500b_process_cardcage sr_atoi card_cage devc.cards).2
  let sdi1 := { sdi with priv := { sdi.priv with cards := cards } }
  match process_cards (cards.take MAX_CARDSLOTS) a sdi1 with
  | none => none
  | some r => some (r.1, { r.2 with priv := { r.2.priv with num_timebases := 36 } })

/-! ## The driver entry points (api.c) -/

/-- What is shared between calls: the driver's instance list
(`drvc->instances`) and the static letter counter. -/
structure hp_world where
  instances : List sr_dev_inst
  letter_a : Nat
  deriving DecidableEq, Repr

/-- A scan option: its key and its string value. -/
structure sr_config where
  key : Int
  data : List Char
  deriving DecidableEq, Repr

/-- The outcomes of the serial calls `scan` makes: `serial_open`, then for
the `*IDN?` and the `:CARDCAGE?` exchange the result of
`serial_write_blocking` and the result of `serial_readline` with the line left
in the buffer. -/
structure scan_env where
  serial_open : Int
  idn_write : Int
  idn_read : Int × List Char
  cage_write : Int
  cage_read : Int × List Char
  deriving DecidableEq, Repr

/-- `hp_16500b_send_command` (protocol.c 67-87): `cmd` with the line feed
appended is written; `written` is the result of `serial_write_blocking`. -/
def hp_16500b_send_command (written : Int) (cmd : List Char) : Int :=
  if written ≠ ((cmd ++ ['\n']).length : Int) then
    if written < 0 then SR_ERR else SR_OK
  else SR_OK

/-- `hp_16500b_read` (protocol.c 89-102): the return code and the buffer. -/
def hp_16500b_read (line : Int × List Char) : Int × List Char :=
  if line.1 ≠ SR_OK then (SR_ERR, line.2) else (SR_OK, line.2)

/-- `hp_16500b_send_command_then_read` (protocol.c 104-120): both calls are
made and their codes or-ed. -/
def hp_16500b_send_command_then_read (written : Int) (line : Int × List Char)
    (cmd : List Char) : Int × List Char :=
  (int_or (int_or SR_OK (hp_16500b_send_command written cmd)) (hp_16500b_read line).1,
   (hp_16500b_read line).2)

/-- `hp_16500b_request_id` (protocol.c 122-125). -/
def hp_16500b_request_id (written : Int) (line : Int × List Char) : Int × List Char :=
  hp_16500b_send_command_then_read written line "*IDN?".toList

/-- `scan` (api.c 131-204).  `std_scan_complete` (std.c, not among the
sources) adds the devices to the driver's instance list and returns them.
The result is `none` when discovery reads outside `supported_cards`. -/
def scan (sr_atoi : List Char → Option Int) (env : scan_env) (w : hp_world)
    (options : List sr_config) : Option (List sr_dev_inst × hp_world) :=
  let conn : Option (List Char) :=
    options.foldl (fun c src => if src.key = SR_CONF_CONN then some src.data else c) none
  match conn with
  | none => some ([], w)
  | some _ =>
    let w1 := { w with instances := [] }
    if env.serial_open ≠ SR_OK then some ([], w1)
    else
      let resp := hp_16500b_request_id env.idn_write env.idn_read
      if resp.1 ≠ SR_OK then some ([], w1)
      else if strncmp (c_str resp.2) IDN_STRING 22 ≠ 0 then some ([], w1)
      else
        let card_cage :=
          (hp_16500b_send_command_then_read env.cage_write env.cage_read
            ":CARDCAGE?".toList).2
        match hp_16500b_get_metadata sr_atoi w1.letter_a (c_str card_cage) with
        | none => none
        | some r => some ([r.2], { instances := w1.instances ++ [r.2], letter_a := r.1 })

/-- `config_set` (api.c 270-297); `data` is the `uint64` the variant holds. -/
def config_set (key : Int) (data : Nat) (sdi : sr_dev_inst) : Int × sr_dev_inst :=
  if key = SR_CONF_SAMPLERATE then
    (SR_OK, { sdi with priv := { sdi.priv with cur_samplerate := data } })
  else if key = SR_CONF_LIMIT_SAMPLES then
    (SR_OK, { sdi with priv := { sdi.priv with limit_samples := data } })
  else (SR_ERR_NA, sdi)

/-! ## The naming convention, in the spec's words -/

/-- The logic channel of the `<letter><group>[<index>]` convention: group
number `group` (from 1), position `j` in the group (from 0), device channel
index `index`. -/
def spec_logic_channel (letter : Char) (group j index : Nat) : sr_channel :=
  { index := index, type := SR_CHANNEL_LOGIC, enabled := true,
    name := [letter] ++ fmt_d group ++ ['['] ++ fmt_d j ++ [']'] }

/-- The `c` channels of logic group number `group`, in order, the first of
them with device channel index `base`. -/
def spec_logic_channels (letter : Char) (group c base : Nat) : List sr_channel :=
  (List.range c).map (fun j => spec_logic_channel letter group j (base + j))

/-- The `g` logic channel groups of a card named `cardname` with `c` channels
each, in order, the first channel of the first group with index `base`. -/
def spec_logic_groups (cardname : Option (List Char)) (letter : Char) (g c base : Nat) :
    List sr_channel_group :=
  (List.range g).map (fun i =>
    { name := fmt_s cardname ++ ['_'] ++ [letter] ++ fmt_d (i + 1),
      channels := spec_logic_channels letter (i + 1) c (base + i * c) })

/-! ## Sample values -/

/-- A decimal parser to stand for `sr_atoi`: an optional minus sign and at
least one digit, nothing else. -/
def sample_atoi (str : List Char) : Option Int :=
  let digits := if str.head? = some '-' then str.tail else str
  if digits ≠ [] ∧ digits.all (fun c => c.isDigit) then
    let v : Nat := digits.foldl (fun acc c => acc * 10 + (c.toNat - 48)) 0
    some (if str.head? = some '-' then -(v : Int) else (v : Int))
  else none

/-- The letter counter of a fresh process and no instance. -/
def sample_hp_world : hp_world := { instances := [], letter_a := 0 }

/-- A scan environment in which every serial call succeeds, the
identification is `idn` and the cardcage response is `cage`. -/
def sample_scan_env (idn cage : List Char) : scan_env :=
  { serial_open := 0, idn_write := 6, idn_read := (0, idn), cage_write := 11,
    cage_read := (0, cage) }

/-- The instance `g_malloc0` and the fixed strings give before any card is
processed, with status `status`. -/
def sample_hp_sdi (status : Int) : sr_dev_inst :=
  { status := status
    vendor := "HEWLETT PACKARD".toList
    model := "16500B".toList
    version := "1.00".toList
    channels := []
    channel_groups := []
    priv :=
      { cards := List.replicate MAX_CARDSLOTS { type := 0, card_master := none }
        num_channels := 0
        seconds_per_div_ps := 0
        trigger_source := none
        trigger_slope := none
        cur_samplerate := 0
        capture_ratio := 0
        limit_samples := 0
        num_timebases := 0 } }

/-- The ten card slots as `g_malloc0` leaves them. -/
def sample_cards : List hp_16500b_card :=
  List.replicate MAX_CARDSLOTS { type := 0, card_master := none }

/-- The tokens of the cardcage response `11,12,0,0,0,3,3,3,3,3`. -/
def sample_cage_tokens : List (List Char) :=
  ["11".toList, "12".toList, "0".toList, "0".toList, "0".toList,
   "3".toList, "3".toList, "3".toList, "3".toList, "3".toList]

/-- The values of those tokens. -/
def sample_cage_values : List Int := [11, 12, 0, 0, 0, 3, 3, 3, 3, 3]

/-- The card in a slot holding an HP 16515A (type 1). -/
def sample_card_16515A : hp_16500b_card := { type := 1, card_master := some 0 }

/-- A cardcage response with an HP 16515A and an HP 16516A in the first two
slots. -/
def sample_cage_two_cards : List Char := "1,2,0,0,0,0,0,0,0,0".toList

/-! ## Table lookups and configuration read-back -/

/-- `hp_16500b_lookup_cardname` (protocol.c 310-312): the `name` field of
`supported_cards[cardtype]`; `none` when the read is outside the table. -/
def hp_16500b_lookup_cardname (cardtype : Int) : Option (Option (List Char)) :=
  match supported_card cardtype with
  | none => none
  | some entry => some entry.name

/-- `hp_16500b_card_get_max_sample_depth` (protocol.c 162-168); `none` when
the read is outside the table.  `HP16500_NO_SAMPLE_RATE` is 0. -/
def hp_16500b_card_get_max_sample_depth (card : hp_16500b_card) : Option Nat :=
  if card.type ≠ -1 then
    match supported_card card.type with
    | none => none
    | some entry => some entry.supported_max_sample_rate
  else some 0

/-- Configuration key `SR_CONF_CAPTURE_RATIO` (libsigrok.h; only that keys
differ matters). -/
def SR_CONF_CAPTURE_RATIO : Int := 30001

/-- Configuration key `SR_CONF_TRIGGER_SLOPE` (libsigrok.h). -/
def SR_CONF_TRIGGER_SLOPE : Int := 30004

/-- Configuration key `SR_CONF_TRIGGER_SOURCE` (libsigrok.h). -/
def SR_CONF_TRIGGER_SOURCE : Int := 30007

/-- Configuration key `SR_CONF_NUM_HDIV` (libsigrok.h). -/
def SR_CONF_NUM_HDIV : Int := 30016

/-- Configuration key `SR_CONF_NUM_VDIV` (libsigrok.h). -/
def SR_CONF_NUM_VDIV : Int := 30017

/-- `NUM_HORIZONTAL_DIVS` (protocol.h 31). -/
def NUM_HORIZONTAL_DIVS : Int := 10

/-- `NUM_VERTICAL_DIVS` (protocol.h 32). -/
def NUM_VERTICAL_DIVS : Int := 4

/-- The values `config_get` builds: a `uint64`, an `int32`, a string, and for
SAMPLERATE the `uint64` made from `sample_rate_table[i]`, which is the address
of row `i` of that two-column table. -/
inductive gvariant where
  | uint64 (v : Nat)
  | int32 (v : Int)
  | string (s : List Char)
  | uint64_of_row (i : Nat)
  deriving DecidableEq, Repr

/-- `strcmp` on C strings: zero exactly when they are equal. -/
def strcmp : List Char → List Char → Int
  | [], [] => 0
  | [], _ :: _ => -1
  | _ :: _, [] => 1
  | a :: s1, b :: s2 => if a = b then strcmp s1 s2 else if a.toNat < b.toNat then -1 else 1

/-- `config_get` (api.c 206-268), from the current `*data`: the return code
and the new `*data`.  Every `break` of the switch leads to the `return
SR_ERR_NA` of line 267.  The result is `none` when a NULL trigger string is
handed to `strcmp` or `strncmp`. -/
def config_get (key : Int) (data : Option gvariant) (sdi : Option sr_dev_inst) :
    Option (Int × Option gvariant) :=
  match sdi with
  | none => some (SR_ERR_ARG, data)
  | some sdi =>
    let devc := sdi.priv
    if key = SR_CONF_CAPTURE_RATIO then
      some (SR_ERR_NA, some (gvariant.uint64 devc.capture_ratio))
    else if key = SR_CONF_LIMIT_SAMPLES then
      some (SR_ERR_NA, some (gvariant.uint64 devc.limit_samples))
    else if key = SR_CONF_NUM_HDIV then
      some (SR_ERR_NA, some (gvariant.int32 NUM_HORIZONTAL_DIVS))
    else if key = SR_CONF_NUM_VDIV then
      some (SR_ERR_NA, some (gvariant.int32 NUM_VERTICAL_DIVS))
    else if key = SR_CONF_SAMPLERATE then
      some (SR_ERR_NA, some (gvariant.uint64_of_row devc.seconds_per_div_ps))
    else if key = SR_CONF_TRIGGER_SOURCE then
      match devc.trigger_source with
      | none => none
      | some source =>
        let tmp_str :=
          if strcmp source "CHAN1".toList = 0 then "CH1".toList
          else if strcmp source "CHAN2".toList = 0 then "CH2".toList
          else if strcmp source "CHAN3".toList = 0 then "CH3".toList
          else if strcmp source "CHAN4".toList = 0 then "CH4".toList
          else source
        some (SR_ERR_NA, some (gvariant.string tmp_str))
    else if key = SR_CONF_TRIGGER_SLOPE then
      match devc.trigger_slope with
      | none => none
      | some slope =>
        if strncmp slope "POS".toList 3 = 0 then
          some (SR_ERR_NA, some (gvariant.string "r".toList))
        else if strncmp slope "NEG".toList 3 = 0 then
          some (SR_ERR_NA, some (gvariant.string "f".toList))
        else some (SR_ERR_NA, data)
    else some (SR_ERR_NA, data)

/-- The sample instance with its trigger strings set. -/
def sample_hp_sdi_triggers : sr_dev_inst :=
  { sample_hp_sdi SR_ST_ACTIVE with
    priv := { (sample_hp_sdi SR_ST_ACTIVE).priv with
      trigger_source := some "CHAN1".toList, trigger_slope := some "POS".toList } }

end Hp16500b

/-!
Library initialisation (backend.c).
-/

namespace Backend

/-- Return code `SR_OK` of libsigrok.h. -/
def SR_OK : Int := 0

/-- Return code `SR_ERR` of libsigrok.h. -/
def SR_ERR : Int := -1

/-- Return code `SR_ERR_MALLOC` of libsigrok.h. -/
def SR_ERR_MALLOC : Int := -2

/-- libusb: `LIBUSB_SUCCESS`. -/
def LIBUSB_SUCCESS : Int := 0

/-- The context, `struct sr_context`: its libusb context, NULL in the zeroed
allocation. -/
structure sr_context where
  libusb_ctx : Option Nat
  deriving DecidableEq, Repr

/-- The outcomes of the calls `sr_init` makes: whether `g_try_malloc0`
returns a block, and the return code of `libusb_init` with the libusb context
it stores on success. -/
structure init_env where
  malloc_ok : Bool
  libusb_ret : Int
  libusb_ctx : Nat
  deriving DecidableEq, Repr

/-- `sr_init` (backend.c 76-107).  `have_libusb` is whether
`HAVE_LIBUSB_1_0` is defined.  `ctx` is `none` for a NULL argument and else
the current value of `*ctx` (`none` for a NULL pointer there); the result is
the return code and `*ctx` after the call. -/
def sr_init (have_libusb : Bool) (env : init_env) (ctx : Option (Option sr_context)) :
    Int × Option (Option sr_context) :=
  match ctx with
  | none => (SR_ERR, none)
  | some target =>
    if env.malloc_ok = false then (SR_ERR_MALLOC, some target)
    else
      let context : sr_context := { libusb_ctx := none }
      if have_libusb then
        if LIBUSB_SUCCESS ≠ env.libusb_ret then (env.libusb_ret, some target)
        else (SR_OK, some (some { context with libusb_ctx := some env.libusb_ctx }))
      else (SR_OK, some (some context))

/-- An environment in which the allocation and `libusb_init` succeed. -/
def sample_init_env : init_env := { malloc_ok := true, libusb_ret := 0, libusb_ctx := 1 }

end Backend

namespace Lascar

/-! ## Bit-level facts about bytes -/

set_option maxRecDepth 100000 in
theorem byte_and_0x80 (b : Nat) (h : b < 256) :
    (if b &&& 0x80 ≠ 0 then 1 else 0) % 2 = b / 128 := by
  revert b
  decide

set_option maxRecDepth 100000 in
theorem byte_and_0x7f (b : Nat) (h : b < 256) : b &&& 0x7f = b % 128 := by
  revert b
  decide

theorem exponent_bits (b3 b2 : Nat) (h2 : b2 < 256) :
    ((b3 <<< 1) ||| (b2 >>> 7)) % 2 ^ 8 = (b3 % 128) * 2 + b2 / 128 := by
  have e : b2 >>> 7 = b2 / 128 := by rw [Nat.shiftRight_eq_div_pow]
  have hy : b2 / 128 < 2 ^ 1 := by omega
  have e1 : (b3 <<< 1) ||| (b2 / 128) = 2 ^ 1 * b3 + b2 / 128 := by
    rw [Nat.mul_add_lt_is_or hy b3, Nat.shiftLeft_eq, Nat.mul_comm]
  rw [e, e1]
  omega

theorem mantissa_bits (b0 b1 b2 : Nat) (h0 : b0 < 256) (h1 : b1 < 256) (h2 : b2 < 256) :
    b0 ||| (b1 <<< 8) ||| ((b2 &&& 0x7f) <<< 16) = b0 + b1 * 2 ^ 8 + (b2 % 128) * 2 ^ 16 := by
  rw [byte_and_0x7f b2 h2]
  have h0p : b0 < 2 ^ 8 := by omega
  have e1 : b0 ||| (b1 <<< 8) = 2 ^ 8 * b1 + b0 := by
    rw [Nat.lor_comm, Nat.mul_add_lt_is_or h0p b1, Nat.shiftLeft_eq, Nat.mul_comm]
  have hlt : 2 ^ 8 * b1 + b0 < 2 ^ 16 := by omega
  have e2 : (2 ^ 8 * b1 + b0) ||| ((b2 % 128) <<< 16)
      = 2 ^ 16 * (b2 % 128) + (2 ^ 8 * b1 + b0) := by
    rw [Nat.lor_comm, Nat.mul_add_lt_is_or hlt (b2 % 128), Nat.shiftLeft_eq, Nat.mul_comm]
  rw [e1, e2]
  omega

theorem byteAt_quad (b0 b1 b2 b3 : Nat)
    (h0 : b0 < 256) (h1 : b1 < 256) (h2 : b2 < 256) (h3 : b3 < 256) :
    byteAt [b0, b1, b2, b3] 0 = b0 ∧ byteAt [b0, b1, b2, b3] 1 = b1 ∧
      byteAt [b0, b1, b2, b3] 2 = b2 ∧ byteAt [b0, b1, b2, b3] 3 = b3 := by
  simp [byteAt, Nat.mod_eq_of_lt, h0, h1, h2, h3]

theorem binary32_fields (b0 b1 b2 b3 : Nat)
    (h0 : b0 < 256) (h1 : b1 < 256) (h2 : b2 < 256) (h3 : b3 < 256) :
    (binary32_le_to_float [b0, b1, b2, b3]).sign = b3 / 128 ∧
      (binary32_le_to_float [b0, b1, b2, b3]).biased_exponent = (b3 % 128) * 2 + b2 / 128 ∧
      (binary32_le_to_float [b0, b1, b2, b3]).mantissa
        = b0 + b1 * 2 ^ 8 + (b2 % 128) * 2 ^ 16 := by
  obtain ⟨e0, e1, e2, e3⟩ := byteAt_quad b0 b1 b2 b3 h0 h1 h2 h3
  unfold binary32_le_to_float
  simp only [e0, e1, e2, e3]
  refine ⟨byte_and_0x80 b3 h3, exponent_bits b3 b2 h2, ?_⟩
  rw [mantissa_bits b0 b1 b2 h0 h1 h2]
  omega

theorem binary32_word_eq (b0 b1 b2 b3 : Nat)
    (h0 : b0 < 256) (h1 : b1 < 256) (h2 : b2 < 256) (h3 : b3 < 256) :
    binary32_word (binary32_le_to_float [b0, b1, b2, b3])
      = b0 + 2 ^ 8 * b1 + 2 ^ 16 * b2 + 2 ^ 24 * b3 := by
  obtain ⟨es, ee, em⟩ := binary32_fields b0 b1 b2 b3 h0 h1 h2 h3
  unfold binary32_word
  rw [es, ee, em]
  omega

end Lascar

namespace Lascar

/-! ## Configuration processing -/

theorem proc_config_rc (g : Option (List Nat)) (sdi : sr_dev_inst) (c : Nat) :
    (lascar_proc_config g { sdi with priv := { sdi.priv with cb_data := c } }).1
      = (lascar_proc_config g sdi).1 := by
  unfold lascar_proc_config
  cases g with
  | none => rfl
  | some cfg =>
    cases h : sdi.priv.logformat <;> simp [h]

theorem proc_config_logged (g : Option (List Nat)) (sdi : sr_dev_inst) (c : Nat) :
    (lascar_proc_config g { sdi with priv := { sdi.priv with cb_data := c } }).2.priv.logged_samples
      = (lascar_proc_config g sdi).2.priv.logged_samples := by
  unfold lascar_proc_config
  cases g with
  | none => rfl
  | some cfg => rfl

theorem proc_config_cb_data (g : Option (List Nat)) (sdi : sr_dev_inst) (c : Nat) :
    (lascar_proc_config g { sdi with priv := { sdi.priv with cb_data := c } }).2.priv.cb_data
      = c := by
  unfold lascar_proc_config
  cases g with
  | none => rfl
  | some cfg =>
    cases h : sdi.priv.logformat <;> simp [h]

theorem proc_config_log_size (g : Option (List Nat)) (sdi : sr_dev_inst) (c : Nat) :
    (lascar_proc_config g { sdi with priv := { sdi.priv with cb_data := c } }).2.priv.log_size
      = sdi.priv.log_size := by
  unfold lascar_proc_config
  cases g with
  | none => rfl
  | some cfg =>
    cases h : sdi.priv.logformat <;> simp [h]

end Lascar

namespace Lascar

/-! ## Acquisition start: the synchronous packets -/

theorem start_config_failed (env : start_env) (w : World) (sdi : sr_dev_inst) (cb_data : Nat)
    (h : (lascar_proc_config env.get_config sdi).1 ≠ SR_OK) :
    ∃ rc sdi', hw_dev_acquisition_start env w sdi cb_data = some (rc, w, sdi') := by
  unfold hw_dev_acquisition_start
  cases hd : w.di_priv with
  | none => exact ⟨_, _, rfl⟩
  | some d =>
    simp only [proc_config_rc]
    rw [if_pos h]
    exact ⟨_, _, rfl⟩

theorem start_zero_backlog_eq (env : start_env) (w : World) (sdi : sr_dev_inst) (cb_data : Nat)
    (hinit : w.di_priv ≠ none)
    (hcfg : (lascar_proc_config env.get_config sdi).1 = SR_OK)
    (hzero : (lascar_proc_config env.get_config sdi).2.priv.logged_samples = 0) :
    hw_dev_acquisition_start env w sdi cb_data
      = some (SR_OK,
          { w with session_bus := w.session_bus ++
              [(cb_data, { type := sr_packet_type.SR_DF_HEADER, payload := { feed_version := 1 } }),
               (cb_data, { type := sr_packet_type.SR_DF_END, payload := { feed_version := 1 } })] },
          (lascar_proc_config env.get_config
            { sdi with priv := { sdi.priv with cb_data := cb_data } }).2) := by
  unfold hw_dev_acquisition_start
  cases hd : w.di_priv with
  | none => exact absurd hd hinit
  | some d =>
    simp [proc_config_rc, proc_config_logged, proc_config_cb_data, hcfg, hzero, sr_session_send, hd]

end Lascar

namespace Lascar

theorem alloc_session_bus (ok : Bool) (w : World) :
    (libusb_alloc_transfer ok w).2.session_bus = w.session_bus := by
  unfold libusb_alloc_transfer
  cases ok <;> rfl

end Lascar

namespace Lascar

/-! ## Acquisition start: the handshake -/

theorem add_sources_eq (l : List (Int × Int)) (w : World) :
    add_sources w l
      = { w with sources := w.sources ++
            l.map (fun p => { fd := p.1, events := p.2, timeout := 100 }) } := by
  induction l generalizing w with
  | nil => simp [add_sources]
  | cons p rest ih =>
    obtain ⟨fd, ev⟩ := p
    simp [add_sources, ih, sr_source_add]

theorem resp_log_size (resp : List Nat) :
    byteAt resp 1 + (byteAt resp 2 <<< 8) = byteAt resp 1 + 256 * byteAt resp 2 ∧
      byteAt resp 1 + 256 * byteAt resp 2 ≤ 65535 := by
  have h1 : byteAt resp 1 < 256 := Nat.mod_lt _ (by decide)
  have h2 : byteAt resp 2 < 256 := Nat.mod_lt _ (by decide)
  rw [Nat.shiftLeft_eq]
  omega

theorem start_response_validation_aux (env : start_env) (w : World) (sdi : sr_dev_inst)
    (cb_data : Nat) (out_user_data : Int)
    (hinit : w.di_priv ≠ none)
    (hcfg : (lascar_proc_config env.get_config sdi).1 = SR_OK)
    (hlog : (lascar_proc_config env.get_config sdi).2.priv.logged_samples ≠ 0)
    (hai : env.alloc_in = true) (hao : env.alloc_out = true)
    (hfl : flush_input env.flush = true)
    (hsi : env.submit_in = 0) (hso : env.submit_out = 0)
    (hwait : wait_xfers env.rounds 0 0 = some (1, out_user_data)) :
    ∃ rc w' sdi', hw_dev_acquisition_start env w sdi cb_data = some (rc, w', sdi') ∧
      (env.actual_length = 3 ∧ byteAt env.resp 0 = 2 →
        sdi'.priv.log_size = byteAt env.resp 1 + 256 * byteAt env.resp 2 ∧
        sdi'.priv.log_size ≤ 65535 ∧
        (rc = SR_OK ↔ env.submit_bulk = 0) ∧
        w'.sources = w.sources ++
          env.pollfds.map (fun p => { fd := p.1, events := p.2, timeout := 100 }) ∧
        w'.xfers_freed = w.xfers_freed ++
          (w.next_xfer + 1) :: (if env.submit_bulk = 0 then [] else [w.next_xfer])) ∧
      (¬(env.actual_length = 3 ∧ byteAt env.resp 0 = 2) →
        rc = SR_ERR ∧ sdi'.priv.log_size = sdi.priv.log_size ∧ w'.sources = w.sources ∧
        w'.xfers_freed = w.xfers_freed ++ [w.next_xfer, w.next_xfer + 1]) := by
  obtain ⟨hls, hle⟩ := resp_log_size env.resp
  unfold hw_dev_acquisition_start
  cases hd : w.di_priv with
  | none => exact absurd hd hinit
  | some d =>
    simp only [proc_config_rc, proc_config_logged, proc_config_cb_data, hcfg, hlog,
      ne_eq, not_true_eq_false, if_false, libusb_alloc_transfer, hai, hao, if_true, hfl,
      hsi, hso, hwait, Bool.true_eq_false, or_self]
    by_cases hacc : env.actual_length = 3 ∧ byteAt env.resp 0 = 2
    · obtain ⟨h3, h2⟩ := hacc
      by_cases hb : env.submit_bulk = 0
      · simp only [h3, h2, hb, not_true_eq_false, or_self, if_false]
        refine ⟨_, _, _, rfl, fun _ => ?_, fun hn => absurd ⟨trivial, trivial⟩ hn⟩
        cases env.malloc_buf <;>
          simp [hls, hle, add_sources_eq, libusb_free_transfer, sr_session_send]
      · simp only [h3, h2, hb, not_true_eq_false, or_self, if_false, not_false_eq_true, if_true]
        refine ⟨_, _, _, rfl, fun _ => ?_, fun hn => absurd ⟨trivial, trivial⟩ hn⟩
        cases env.malloc_buf <;>
          simp [hls, hle, add_sources_eq, libusb_free_transfer, sr_session_send, SR_ERR, SR_OK]
    · have hor : ¬env.actual_length = 3 ∨ ¬byteAt env.resp 0 = 2 := by
        by_contra hc
        push_neg at hc
        exact hacc hc
      rw [if_pos hor]
      refine ⟨_, _, _, rfl, fun hy => absurd hy hacc, fun _ => ?_⟩
      simp [libusb_free_transfer, sr_session_send, proc_config_log_size]

end Lascar

namespace Lascar

theorem start_detected_failure_releases (env : start_env) (w : World) (sdi : sr_dev_inst)
    (cb_data : Nat)
    (hinit : w.di_priv ≠ none)
    (hcfg : (lascar_proc_config env.get_config sdi).1 = SR_OK)
    (hlog : (lascar_proc_config env.get_config sdi).2.priv.logged_samples ≠ 0)
    (hai : env.alloc_in = true) (hao : env.alloc_out = true)
    (hfl : flush_input env.flush = true)
    (hfail : env.submit_in ≠ 0 ∨ env.submit_out ≠ 0 ∨
      ∃ in_ud out_ud, wait_xfers env.rounds 0 0 = some (in_ud, out_ud) ∧
        (in_ud ≠ 1 ∨ env.actual_length ≠ 3 ∨ byteAt env.resp 0 ≠ 2)) :
    ∃ w' sdi', hw_dev_acquisition_start env w sdi cb_data = some (SR_ERR, w', sdi') ∧
      w'.xfers_freed = w.xfers_freed ++ [w.next_xfer, w.next_xfer + 1] ∧
      w'.sources = w.sources := by
  unfold hw_dev_acquisition_start
  cases hd : w.di_priv with
  | none => exact absurd hd hinit
  | some d =>
    simp only [proc_config_rc, proc_config_logged, proc_config_cb_data, hcfg, hlog,
      ne_eq, not_true_eq_false, if_false, libusb_alloc_transfer, hai, hao, if_true, hfl,
      Bool.true_eq_false, or_self]
    by_cases hsi : env.submit_in = 0
    · by_cases hso : env.submit_out = 0
      · rcases hfail with h | h | ⟨in_ud, out_ud, hwait, h⟩
        · exact absurd hsi h
        · exact absurd hso h
        · simp only [hsi, hso, hwait, not_true_eq_false, if_false]
          by_cases hin : in_ud = 1
          · have hor : ¬env.actual_length = 3 ∨ ¬byteAt env.resp 0 = 2 := by
              rcases h with h | h
              · exact absurd hin h
              · exact h
            simp only [hin, not_true_eq_false, if_false]
            rw [if_pos hor]
            exact ⟨_, _, rfl, by simp [libusb_free_transfer, sr_session_send],
              by simp [libusb_free_transfer, sr_session_send]⟩
          · simp only [hin, not_false_eq_true, if_true]
            exact ⟨_, _, rfl, by simp [libusb_free_transfer, sr_session_send],
              by simp [libusb_free_transfer, sr_session_send]⟩
      · simp only [hsi, hso, not_true_eq_false, if_false, not_false_eq_true, if_true]
        exact ⟨_, _, rfl, by simp [libusb_free_transfer, sr_session_send],
          by simp [libusb_free_transfer, sr_session_send]⟩
    · simp only [hsi, not_false_eq_true, if_true]
      exact ⟨_, _, rfl, by simp [libusb_free_transfer, sr_session_send],
        by simp [libusb_free_transfer, sr_session_send]⟩

theorem start_returns (env : start_env) (w : World) (sdi : sr_dev_inst) (cb_data : Nat)
    (hfl : flush_input env.flush = true) (hwait : wait_xfers env.rounds 0 0 ≠ none) :
    ∃ r, hw_dev_acquisition_start env w sdi cb_data = some r := by
  obtain ⟨p, hp⟩ := Option.ne_none_iff_exists'.mp hwait
  apply Option.ne_none_iff_exists'.mp
  unfold hw_dev_acquisition_start
  simp only [hfl, hp, Bool.true_eq_false, if_false]
  repeat' split
  all_goals exact Option.some_ne_none _

/-! ## Properties of the Lascar driver -/

/-- C1: a call of `hw_dev_acquisition_start` on an initialised driver whose
configuration processing succeeds and reports zero logged samples returns
`SR_OK`, and the packets it sends to the sink are exactly HEADER then END. -/
theorem lascar_start_zero_backlog (env : start_env) (w : World) (sdi : sr_dev_inst)
    (cb_data : Nat)
    (hinit : w.di_priv ≠ none)
    (hcfg : (lascar_proc_config env.get_config sdi).1 = SR_OK)
    (hzero : (lascar_proc_config env.get_config sdi).2.priv.logged_samples = 0) :
    ∃ w' sdi', hw_dev_acquisition_start env w sdi cb_data = some (SR_OK, w', sdi') ∧
      w'.session_bus = w.session_bus ++
        [(cb_data, { type := sr_packet_type.SR_DF_HEADER, payload := { feed_version := 1 } }),
         (cb_data, { type := sr_packet_type.SR_DF_END, payload := { feed_version := 1 } })] ∧
      (w'.session_bus.drop w.session_bus.length).map (fun p => p.2.type)
        = [sr_packet_type.SR_DF_HEADER, sr_packet_type.SR_DF_END] :=
  ⟨_, _, start_zero_backlog_eq env w sdi cb_data hinit hcfg hzero, rfl, by simp⟩

theorem lascar_start_zero_backlog_witness :
    sample_world.di_priv ≠ none ∧
    (lascar_proc_config (sample_env 0 0).get_config sample_sdi).1 = SR_OK ∧
    (lascar_proc_config (sample_env 0 0).get_config sample_sdi).2.priv.logged_samples = 0 ∧
    ∃ w' sdi', hw_dev_acquisition_start (sample_env 0 0) sample_world sample_sdi 7
        = some (SR_OK, w', sdi') ∧
      w'.session_bus = sample_world.session_bus ++
        [(7, { type := sr_packet_type.SR_DF_HEADER, payload := { feed_version := 1 } }),
         (7, { type := sr_packet_type.SR_DF_END, payload := { feed_version := 1 } })] ∧
      (w'.session_bus.drop sample_world.session_bus.length).map (fun p => p.2.type)
        = [sr_packet_type.SR_DF_HEADER, sr_packet_type.SR_DF_END] :=
  ⟨by decide, by decide, by decide,
    lascar_start_zero_backlog (sample_env 0 0) sample_world sample_sdi 7
      (by decide) (by decide) (by decide)⟩

end Lascar

namespace Lascar

/-- C3: once both handshake submissions succeeded and the inbound status read
completed, the response is accepted exactly when its received length is 3 and
its first byte is 0x02.  An accepted response sets `log_size` to
byte1 + 256 * byte2, at most 65535, and the handshake goes on (the outbound
transfer is released first, the poll descriptors are registered, and the call
succeeds exactly when the bulk submission does); every other response aborts
the call with `SR_ERR`, releasing the inbound then the outbound transfer and
leaving `log_size` and the registrations as they were. -/
theorem lascar_start_response_validation (env : start_env) (w : World) (sdi : sr_dev_inst)
    (cb_data : Nat) (out_user_data : Int)
    (hinit : w.di_priv ≠ none)
    (hcfg : (lascar_proc_config env.get_config sdi).1 = SR_OK)
    (hlog : (lascar_proc_config env.get_config sdi).2.priv.logged_samples ≠ 0)
    (hai : env.alloc_in = true) (hao : env.alloc_out = true)
    (hfl : flush_input env.flush = true)
    (hsi : env.submit_in = 0) (hso : env.submit_out = 0)
    (hwait : wait_xfers env.rounds 0 0 = some (1, out_user_data)) :
    ∃ rc w' sdi', hw_dev_acquisition_start env w sdi cb_data = some (rc, w', sdi') ∧
      (env.actual_length = 3 ∧ byteAt env.resp 0 = 2 →
        sdi'.priv.log_size = byteAt env.resp 1 + 256 * byteAt env.resp 2 ∧
        sdi'.priv.log_size ≤ 65535 ∧
        (rc = SR_OK ↔ env.submit_bulk = 0) ∧
        w'.sources = w.sources ++
          env.pollfds.map (fun p => { fd := p.1, events := p.2, timeout := 100 }) ∧
        w'.xfers_freed = w.xfers_freed ++
          (w.next_xfer + 1) :: (if env.submit_bulk = 0 then [] else [w.next_xfer])) ∧
      (¬(env.actual_length = 3 ∧ byteAt env.resp 0 = 2) →
        rc = SR_ERR ∧ sdi'.priv.log_size = sdi.priv.log_size ∧ w'.sources = w.sources ∧
        w'.xfers_freed = w.xfers_freed ++ [w.next_xfer, w.next_xfer + 1]) :=
  start_response_validation_aux env w sdi cb_data out_user_data hinit hcfg hlog hai hao hfl
    hsi hso hwait

theorem lascar_start_response_validation_witness :
    sample_world.di_priv ≠ none ∧
    (lascar_proc_config (sample_env 1 0).get_config sample_sdi).1 = SR_OK ∧
    (lascar_proc_config (sample_env 1 0).get_config sample_sdi).2.priv.logged_samples ≠ 0 ∧
    (sample_env 1 0).alloc_in = true ∧ (sample_env 1 0).alloc_out = true ∧
    flush_input (sample_env 1 0).flush = true ∧
    (sample_env 1 0).submit_in = 0 ∧ (sample_env 1 0).submit_out = 0 ∧
    wait_xfers (sample_env 1 0).rounds 0 0 = some (1, 1) ∧
    ∃ rc w' sdi', hw_dev_acquisition_start (sample_env 1 0) sample_world sample_sdi 7
        = some (rc, w', sdi') ∧
      ((sample_env 1 0).actual_length = 3 ∧ byteAt (sample_env 1 0).resp 0 = 2 →
        sdi'.priv.log_size
          = byteAt (sample_env 1 0).resp 1 + 256 * byteAt (sample_env 1 0).resp 2 ∧
        sdi'.priv.log_size ≤ 65535 ∧
        (rc = SR_OK ↔ (sample_env 1 0).submit_bulk = 0) ∧
        w'.sources = sample_world.sources ++
          (sample_env 1 0).pollfds.map (fun p => { fd := p.1, events := p.2, timeout := 100 }) ∧
        w'.xfers_freed = sample_world.xfers_freed ++
          (sample_world.next_xfer + 1) ::
            (if (sample_env 1 0).submit_bulk = 0 then [] else [sample_world.next_xfer])) ∧
      (¬((sample_env 1 0).actual_length = 3 ∧ byteAt (sample_env 1 0).resp 0 = 2) →
        rc = SR_ERR ∧ sdi'.priv.log_size = sample_sdi.priv.log_size ∧
        w'.sources = sample_world.sources ∧
        w'.xfers_freed = sample_world.xfers_freed ++
          [sample_world.next_xfer, sample_world.next_xfer + 1]) :=
  ⟨by decide, by decide, by decide, by decide, by decide, by decide, by decide, by decide,
    by decide,
    lascar_start_response_validation (sample_env 1 0) sample_world sample_sdi 7 1
      (by decide) (by decide) (by decide) (by decide) (by decide) (by decide) (by decide)
      (by decide) (by decide)⟩

/-- C4 fails on the code: the completion check of api.c 411-412 tests the
inbound transfer twice and the outbound transfer never.  When the outbound
command write times out (its `user_data` is -1) and the inbound read
completes with a valid response, the call goes on and returns `SR_OK`. -/
theorem lascar_start_outbound_status_unchecked :
    wait_xfers sample_env_out_failed.rounds 0 0 = some (1, -1) ∧
      (hw_dev_acquisition_start sample_env_out_failed sample_world sample_sdi 7).map
        (fun r => r.1) = some SR_OK := by
  decide

/-- C5 fails on the code, by the defect of C4: with the outbound handshake
transfer not completed, the call returns `SR_OK`, the outbound transfer
(object 1) is the only one released and the inbound transfer (object 0) is
still allocated. -/
theorem lascar_start_outbound_failure_not_released :
    (hw_dev_acquisition_start sample_env_out_failed sample_world sample_sdi 7).map
        (fun r => (r.1, r.2.1.xfers_freed, r.2.1.xfers_live)) = some (SR_OK, [1], [0]) := by
  decide

/-- C6 fails on the code.  When the second `libusb_alloc_transfer` returns
NULL the call fails with the first transfer (object 0) still allocated and
never released; when the submission of the bulk read fails the call fails
with the two event sources it registered still in the multiplexer. -/
theorem lascar_start_failure_leaks :
    (hw_dev_acquisition_start sample_env_alloc_out_failed sample_world sample_sdi 7).map
        (fun r => (r.1, r.2.1.xfers_live, r.2.1.xfers_freed)) = some (SR_ERR, [0], []) ∧
      (hw_dev_acquisition_start sample_env_bulk_failed sample_world sample_sdi 7).map
        (fun r => (r.1, r.2.1.sources, r.2.1.xfers_live))
        = some (SR_ERR,
            [{ fd := 5, events := 1, timeout := 100 }, { fd := 6, events := 4, timeout := 100 }],
            []) ∧
      sample_world.sources = [] ∧ sample_world.xfers_live = [] := by
  decide

end Lascar

namespace Lascar

/-- C7: for every four bytes whose decoded biased exponent is not 255,
re-encoding the sign, biased exponent and mantissa that `binary32_le_to_float`
stores as a little-endian binary32 quadruple gives back the four bytes. -/
theorem lascar_binary32_roundtrip (b0 b1 b2 b3 : Nat)
    (h0 : b0 < 256) (h1 : b1 < 256) (h2 : b2 < 256) (h3 : b3 < 256)
    (_hfinite : (binary32_le_to_float [b0, b1, b2, b3]).biased_exponent ≠ 255) :
    binary32_le_encode (binary32_le_to_float [b0, b1, b2, b3]) = [b0, b1, b2, b3] := by
  unfold binary32_le_encode
  rw [binary32_word_eq b0 b1 b2 b3 h0 h1 h2 h3]
  have e0 : (b0 + 2 ^ 8 * b1 + 2 ^ 16 * b2 + 2 ^ 24 * b3) % 256 = b0 := by omega
  have e1 : (b0 + 2 ^ 8 * b1 + 2 ^ 16 * b2 + 2 ^ 24 * b3) / 2 ^ 8 % 256 = b1 := by omega
  have e2 : (b0 + 2 ^ 8 * b1 + 2 ^ 16 * b2 + 2 ^ 24 * b3) / 2 ^ 16 % 256 = b2 := by omega
  have e3 : (b0 + 2 ^ 8 * b1 + 2 ^ 16 * b2 + 2 ^ 24 * b3) / 2 ^ 24 % 256 = b3 := by omega
  rw [e0, e1, e2, e3]

theorem lascar_binary32_roundtrip_witness :
    (binary32_le_to_float [0x00, 0x00, 0x48, 0xc2]).biased_exponent ≠ 255 ∧
      binary32_le_encode (binary32_le_to_float [0x00, 0x00, 0x48, 0xc2])
        = [0x00, 0x00, 0x48, 0xc2] :=
  ⟨by decide,
    lascar_binary32_roundtrip 0x00 0x00 0x48 0xc2 (by decide) (by decide) (by decide)
      (by decide) (by decide)⟩

/-- C8: for every four bytes, `binary32_le_to_float` stores sign = bit 7 of
byte 3, biased exponent = the low 8 bits of (b3 << 1) | (b2 >> 7), and
mantissa = b0 | (b1 << 8) | ((b2 & 0x7F) << 16), a 23-bit value; together
sign * 2^31 + exponent * 2^23 + mantissa is the little-endian word of the
four bytes. -/
theorem lascar_binary32_fields (b0 b1 b2 b3 : Nat)
    (h0 : b0 < 256) (h1 : b1 < 256) (h2 : b2 < 256) (h3 : b3 < 256) :
    (binary32_le_to_float [b0, b1, b2, b3]).sign = b3 / 2 ^ 7 % 2 ∧
      (binary32_le_to_float [b0, b1, b2, b3]).biased_exponent
        = ((b3 <<< 1) ||| (b2 >>> 7)) % 2 ^ 8 ∧
      (binary32_le_to_float [b0, b1, b2, b3]).mantissa
        = b0 ||| (b1 <<< 8) ||| ((b2 &&& 0x7f) <<< 16) ∧
      (binary32_le_to_float [b0, b1, b2, b3]).mantissa < 2 ^ 23 ∧
      (binary32_le_to_float [b0, b1, b2, b3]).sign * 2 ^ 31
          + (binary32_le_to_float [b0, b1, b2, b3]).biased_exponent * 2 ^ 23
          + (binary32_le_to_float [b0, b1, b2, b3]).mantissa
        = b0 + 2 ^ 8 * b1 + 2 ^ 16 * b2 + 2 ^ 24 * b3 := by
  obtain ⟨es, ee, em⟩ := binary32_fields b0 b1 b2 b3 h0 h1 h2 h3
  have hw := binary32_word_eq b0 b1 b2 b3 h0 h1 h2 h3
  unfold binary32_word at hw
  refine ⟨?_, ?_, ?_, ?_, hw⟩
  · rw [es]
    omega
  · rw [ee, exponent_bits b3 b2 h2]
  · rw [em, mantissa_bits b0 b1 b2 h0 h1 h2]
  · rw [em]
    omega

theorem lascar_binary32_fields_witness :
    (binary32_le_to_float [0x00, 0x00, 0x48, 0xc2]).sign = 0xc2 / 2 ^ 7 % 2 ∧
      (binary32_le_to_float [0x00, 0x00, 0x48, 0xc2]).biased_exponent
        = ((0xc2 <<< 1) ||| (0x48 >>> 7)) % 2 ^ 8 ∧
      (binary32_le_to_float [0x00, 0x00, 0x48, 0xc2]).mantissa
        = 0x00 ||| (0x00 <<< 8) ||| ((0x48 &&& 0x7f) <<< 16) ∧
      (binary32_le_to_float [0x00, 0x00, 0x48, 0xc2]).mantissa < 2 ^ 23 ∧
      (binary32_le_to_float [0x00, 0x00, 0x48, 0xc2]).sign * 2 ^ 31
          + (binary32_le_to_float [0x00, 0x00, 0x48, 0xc2]).biased_exponent * 2 ^ 23
          + (binary32_le_to_float [0x00, 0x00, 0x48, 0xc2]).mantissa
        = 0x00 + 2 ^ 8 * 0x00 + 2 ^ 16 * 0x48 + 2 ^ 24 * 0xc2 :=
  lascar_binary32_fields 0x00 0x00 0x48 0xc2 (by decide) (by decide) (by decide) (by decide)

/-- C9: with the driver initialised, `hw_dev_close` on an instance whose
transport handle is already cleared returns `SR_OK` and changes nothing; so
for every instance the first close returns `SR_OK` and a second close returns
`SR_OK` and leaves the state of the first. -/
theorem lascar_close_idempotent (w : World) (sdi : sr_dev_inst)
    (hinit : w.di_priv ≠ none) :
    (sdi.priv.usb.devhdl = none → hw_dev_close w sdi = (SR_OK, w, sdi)) ∧
      (hw_dev_close w sdi).1 = SR_OK ∧
      hw_dev_close (hw_dev_close w sdi).2.1 (hw_dev_close w sdi).2.2
        = (SR_OK, (hw_dev_close w sdi).2.1, (hw_dev_close w sdi).2.2) := by
  obtain ⟨d, hd⟩ := Option.ne_none_iff_exists'.mp hinit
  unfold hw_dev_close
  cases hh : sdi.priv.usb.devhdl with
  | none => simp [hd, hh]
  | some hdl => simp [hd]

theorem lascar_close_idempotent_witness :
    sample_world.di_priv ≠ none ∧
      (sample_sdi.priv.usb.devhdl = none →
        hw_dev_close sample_world sample_sdi = (SR_OK, sample_world, sample_sdi)) ∧
      (hw_dev_close sample_world sample_sdi).1 = SR_OK ∧
      hw_dev_close (hw_dev_close sample_world sample_sdi).2.1
          (hw_dev_close sample_world sample_sdi).2.2
        = (SR_OK, (hw_dev_close sample_world sample_sdi).2.1,
            (hw_dev_close sample_world sample_sdi).2.2) :=
  ⟨by decide, lascar_close_idempotent sample_world sample_sdi (by decide)⟩

/-- C10: for every instance, a successful `hw_dev_open` followed directly by
`hw_dev_close` returns `SR_OK`, leaves the instance with status INACTIVE and
its transport handle cleared, and leaves the multiplexer's registered set as
it was before the open (empty if it was empty). -/
theorem lascar_open_close (env : open_env) (w : World) (sdi : sr_dev_inst)
    (hopen : (hw_dev_open env w sdi).1 = SR_OK) :
    (hw_dev_open env w sdi).2.2.status = sr_status.SR_ST_ACTIVE ∧
      (hw_dev_open env w sdi).2.2.priv.usb.devhdl ≠ none ∧
      (hw_dev_close (hw_dev_open env w sdi).2.1 (hw_dev_open env w sdi).2.2).1 = SR_OK ∧
      (hw_dev_close (hw_dev_open env w sdi).2.1 (hw_dev_open env w sdi).2.2).2.2.status
        = sr_status.SR_ST_INACTIVE ∧
      (hw_dev_close (hw_dev_open env w sdi).2.1 (hw_dev_open env w sdi).2.2).2.2.priv.usb.devhdl
        = none ∧
      (hw_dev_close (hw_dev_open env w sdi).2.1 (hw_dev_open env w sdi).2.2).2.1.sources
        = w.sources ∧
      (w.sources = [] →
        (hw_dev_close (hw_dev_open env w sdi).2.1 (hw_dev_open env w sdi).2.2).2.1.sources
          = []) := by
  unfold hw_dev_open at hopen ⊢
  cases hd : w.di_priv with
  | none => simp [hd, SR_ERR, SR_OK] at hopen
  | some d =>
    cases hu : env.usb_open with
    | none => simp [hd, hu, SR_ERR, SR_OK] at hopen
    | some hdl =>
      by_cases hc : env.claim = 0
      · simp [hc, hw_dev_close, hd]
      · simp [hd, hu, hc, SR_ERR, SR_OK] at hopen

theorem lascar_open_close_witness :
    (hw_dev_open sample_open_env sample_world sample_sdi).1 = SR_OK ∧
      (hw_dev_close (hw_dev_open sample_open_env sample_world sample_sdi).2.1
          (hw_dev_open sample_open_env sample_world sample_sdi).2.2).2.2.status
        = sr_status.SR_ST_INACTIVE ∧
      (hw_dev_close (hw_dev_open sample_open_env sample_world sample_sdi).2.1
          (hw_dev_open sample_open_env sample_world sample_sdi).2.2).2.2.priv.usb.devhdl
        = none ∧
      (hw_dev_close (hw_dev_open sample_open_env sample_world sample_sdi).2.1
          (hw_dev_open sample_open_env sample_world sample_sdi).2.2).2.1.sources
        = sample_world.sources :=
  ⟨by decide,
    (lascar_open_close sample_open_env sample_world sample_sdi (by decide)).2.2.2.1,
    (lascar_open_close sample_open_env sample_world sample_sdi (by decide)).2.2.2.2.1,
    (lascar_open_close sample_open_env sample_world sample_sdi (by decide)).2.2.2.2.2.1⟩

end Lascar

namespace Lascar

/-! ## Status, stop, close, scan and configuration -/

theorem close_sources (w : World) (sdi : sr_dev_inst) :
    (hw_dev_close w sdi).2.1.sources = w.sources := by
  unfold hw_dev_close
  cases w.di_priv with
  | none => rfl
  | some d =>
    cases sdi.priv.usb.devhdl with
    | none => rfl
    | some hdl => rfl

theorem wrap_usb_devices_eq (lascar_scan : Nat → Nat → Option sr_dev_inst)
    (l : List sr_usb_dev_inst) (instances devices : List sr_dev_inst) :
    wrap_usb_devices lascar_scan l (instances, devices)
      = (instances ++ l.filterMap (fun usb => (lascar_scan usb.bus usb.address).map
            (fun sdi => { sdi with priv := { sdi.priv with usb := usb } })),
         devices ++ l.filterMap (fun usb => (lascar_scan usb.bus usb.address).map
            (fun sdi => { sdi with priv := { sdi.priv with usb := usb } }))) := by
  induction l generalizing instances devices with
  | nil => simp [wrap_usb_devices]
  | cons usb rest ih =>
    cases h : lascar_scan usb.bus usb.address with
    | none => simp [wrap_usb_devices, h, ih, List.filterMap_cons]
    | some sdi => simp [wrap_usb_devices, h, ih, List.filterMap_cons]

theorem clear_instances_di_priv (w : World) (drvc : drv_context)
    (h : w.di_priv = some drvc) :
    (clear_instances w).2.di_priv = some { drvc with instances := [] } := by
  unfold clear_instances
  simp [h]

/-- C12: `hw_dev_acquisition_stop` returns `SR_OK` exactly when the driver is
initialised and the status is ACTIVE; then the status becomes STOPPING and
nothing else changes, in the instance or outside it; otherwise it returns
`SR_ERR` and the instance and the world are unchanged. -/
theorem lascar_stop_frame (w : World) (sdi : sr_dev_inst) :
    ((hw_dev_acquisition_stop w sdi).1 = SR_OK ↔
        w.di_priv ≠ none ∧ sdi.status = sr_status.SR_ST_ACTIVE) ∧
      ((hw_dev_acquisition_stop w sdi).1 = SR_OK →
        hw_dev_acquisition_stop w sdi
          = (SR_OK, w, { sdi with status := sr_status.SR_ST_STOPPING })) ∧
      ((hw_dev_acquisition_stop w sdi).1 ≠ SR_OK →
        hw_dev_acquisition_stop w sdi = (SR_ERR, w, sdi)) := by
  unfold hw_dev_acquisition_stop
  cases w.di_priv with
  | none => simp [SR_OK, SR_ERR]
  | some d =>
    by_cases hs : sdi.status = sr_status.SR_ST_ACTIVE <;> simp [hs, SR_OK, SR_ERR]

/-- C13 fails on the code: `hw_dev_close` releases the transport handle
without removing any event source.  After open and a started acquisition that
registered two event sources, close returns `SR_OK`, the instance's handle is
cleared and no libusb handle stays open, yet both sources are still
registered and their descriptors still listed in `usbfd`; and for every
state, close leaves the registered set as it found it. -/
theorem lascar_close_keeps_sources :
    (hw_dev_acquisition_start (sample_env 1 0) sample_world_open sample_sdi_open 7).map
        (fun r => (r.1, r.2.1.sources, r.2.1.usb_handles, r.2.2.priv.usb.devhdl))
        = some (SR_OK,
            [{ fd := 5, events := 1, timeout := 100 }, { fd := 6, events := 4, timeout := 100 }],
            [9], some 9) ∧
      (hw_dev_acquisition_start (sample_env 1 0) sample_world_open sample_sdi_open 7).map
        (fun r => ((hw_dev_close r.2.1 r.2.2).1, (hw_dev_close r.2.1 r.2.2).2.1.sources,
          (hw_dev_close r.2.1 r.2.2).2.1.usb_handles,
          (hw_dev_close r.2.1 r.2.2).2.2.priv.usb.devhdl,
          (hw_dev_close r.2.1 r.2.2).2.2.priv.usbfd))
        = some (SR_OK,
            [{ fd := 5, events := 1, timeout := 100 }, { fd := 6, events := 4, timeout := 100 }],
            [], none, [5, 6, -1]) ∧
      ∀ (w : World) (sdi : sr_dev_inst), (hw_dev_close w sdi).2.1.sources = w.sources :=
  ⟨rfl, rfl, close_sources⟩

/-- C14: on an initialised driver, for every prior instance list and every
list of candidates found for the connection option, `hw_scan` returns the
instances of exactly the candidates `lascar_scan` recognised, in candidate
order and each bound to its candidate, and the driver's instance list is that
same list. -/
theorem lascar_scan_authoritative (usb_find : List Char → List sr_usb_dev_inst)
    (lascar_scan : Nat → Nat → Option sr_dev_inst) (w : World) (options : List sr_config)
    (drvc : drv_context) (conn : List Char)
    (hinit : w.di_priv = some drvc)
    (hconn : options.foldl (fun c src => if src.key = SR_CONF_CONN then src.value else c) none
      = some conn) :
    ∃ w', hw_scan usb_find lascar_scan w options
        = some ((usb_find conn).filterMap (fun usb => (lascar_scan usb.bus usb.address).map
            (fun sdi => { sdi with priv := { sdi.priv with usb := usb } })), w') ∧
      w'.di_priv = some { drvc with
        instances := (usb_find conn).filterMap (fun usb =>
          (lascar_scan usb.bus usb.address).map
            (fun sdi => { sdi with priv := { sdi.priv with usb := usb } })) } := by
  unfold hw_scan
  simp only [hconn, clear_instances_di_priv w drvc hinit, wrap_usb_devices_eq]
  exact ⟨_, rfl, by simp⟩

theorem lascar_scan_authoritative_witness :
    sample_world_stale.di_priv = some { sr_ctx := 1, instances := [sample_sdi_open] } ∧
      ∃ w', hw_scan (fun _ => sample_usb_devices) sample_lascar_scan sample_world_stale
          [{ key := SR_CONF_CONN, value := some ['1', '.', '4'] }]
        = some ((sample_usb_devices).filterMap (fun usb =>
            (sample_lascar_scan usb.bus usb.address).map
              (fun sdi => { sdi with priv := { sdi.priv with usb := usb } })), w') ∧
        w'.di_priv = some { sr_ctx := 1, instances := (sample_usb_devices).filterMap (fun usb =>
            (sample_lascar_scan usb.bus usb.address).map
              (fun sdi => { sdi with priv := { sdi.priv with usb := usb } })) } :=
  ⟨by decide,
    lascar_scan_authoritative (fun _ => sample_usb_devices) sample_lascar_scan
      sample_world_stale [{ key := SR_CONF_CONN, value := some ['1', '.', '4'] }]
      { sr_ctx := 1, instances := [sample_sdi_open] } ['1', '.', '4'] (by decide) (by decide)⟩

/-- C15: `config_set` returns `SR_OK` exactly when the driver is initialised,
the status is ACTIVE and the key is LIMIT_SAMPLES, and then only the stored
sample limit changes, to the given value; it returns `SR_ERR` whenever the
status is not ACTIVE, `SR_ERR_ARG` for every other key on an active instance
of an initialised driver, and every failing call leaves the instance
unchanged. -/
theorem lascar_config_set (id : Int) (value : Nat) (w : World) (sdi : sr_dev_inst) :
    ((config_set id value w sdi).1 = SR_OK ↔
        w.di_priv ≠ none ∧ sdi.status = sr_status.SR_ST_ACTIVE ∧ id = SR_CONF_LIMIT_SAMPLES) ∧
      ((config_set id value w sdi).1 = SR_OK →
        (config_set id value w sdi).2
          = { sdi with priv := { sdi.priv with limit_samples := value } } ∧
        (config_set id value w sdi).2.priv.limit_samples = value) ∧
      (sdi.status ≠ sr_status.SR_ST_ACTIVE → (config_set id value w sdi).1 = SR_ERR) ∧
      (w.di_priv ≠ none → sdi.status = sr_status.SR_ST_ACTIVE → id ≠ SR_CONF_LIMIT_SAMPLES →
        (config_set id value w sdi).1 = SR_ERR_ARG) ∧
      ((config_set id value w sdi).1 ≠ SR_OK → (config_set id value w sdi).2 = sdi) := by
  unfold config_set
  cases w.di_priv with
  | none => simp [SR_OK, SR_ERR]
  | some d =>
    by_cases hs : sdi.status = sr_status.SR_ST_ACTIVE
    · by_cases hk : id = SR_CONF_LIMIT_SAMPLES <;> simp [hs, hk, SR_OK, SR_ERR, SR_ERR_ARG]
    · simp [hs, SR_OK, SR_ERR]

end Lascar

namespace Hp16500b

/-! ## Configuration and scan of the HP 16500B -/

theorem strncmp_eq_zero_iff (t s : List Char) :
    strncmp s t t.length = 0 ↔ t <+: s := by
  induction t generalizing s with
  | nil => simp [strncmp]
  | cons b t ih =>
    cases s with
    | nil => simp [strncmp]
    | cons a s =>
      by_cases hab : a = b
      · subst hab
        simp [strncmp, ih, List.cons_prefix_cons]
      · have hba : ¬b = a := fun h => hab h.symm
        by_cases hlt : a.toNat < b.toNat <;>
          simp [strncmp, hab, hba, hlt, List.cons_prefix_cons]

theorem request_id_buffer (written : Int) (line : Int × List Char) :
    (hp_16500b_request_id written line).2 = line.2 := by
  unfold hp_16500b_request_id hp_16500b_send_command_then_read hp_16500b_read
  split <;> rfl

/-- C16, as stated, fails: on an instance whose status is INACTIVE,
`config_set` of SAMPLERATE returns `SR_OK` and stores the value, and so does
`config_set` of LIMIT_SAMPLES. -/
theorem hp_config_set_inactive_counterexample :
    (sample_hp_sdi SR_ST_INACTIVE).status ≠ SR_ST_ACTIVE ∧
      (config_set SR_CONF_SAMPLERATE 1000 (sample_hp_sdi SR_ST_INACTIVE)).1 = SR_OK ∧
      (config_set SR_CONF_SAMPLERATE 1000 (sample_hp_sdi SR_ST_INACTIVE)).2.priv.cur_samplerate
        = 1000 ∧
      (sample_hp_sdi SR_ST_INACTIVE).priv.cur_samplerate = 0 ∧
      (config_set SR_CONF_LIMIT_SAMPLES 4096 (sample_hp_sdi SR_ST_INACTIVE)).1 = SR_OK ∧
      (config_set SR_CONF_LIMIT_SAMPLES 4096 (sample_hp_sdi SR_ST_INACTIVE)).2.priv.limit_samples
        = 4096 := by
  decide

/-- C16, amended: the hp-16500b `config_set` does not look at the instance
status.  For every status it returns `SR_OK` and stores the value for
SAMPLERATE (as the sample rate) and for LIMIT_SAMPLES (as the sample limit),
and for every other key it returns `SR_ERR_NA` and leaves the instance, so
also the stored sample rate and sample limit, unchanged. -/
theorem hp_config_set_any_status (key : Int) (data : Nat) (sdi : sr_dev_inst) :
    (key = SR_CONF_SAMPLERATE →
        config_set key data sdi
          = (SR_OK, { sdi with priv := { sdi.priv with cur_samplerate := data } })) ∧
      (key = SR_CONF_LIMIT_SAMPLES →
        config_set key data sdi
          = (SR_OK, { sdi with priv := { sdi.priv with limit_samples := data } })) ∧
      (key ≠ SR_CONF_SAMPLERATE → key ≠ SR_CONF_LIMIT_SAMPLES →
        config_set key data sdi = (SR_ERR_NA, sdi)) ∧
      (∀ status, (config_set key data { sdi with status := status }).1
          = (config_set key data sdi).1 ∧
        (config_set key data { sdi with status := status }).2.priv
          = (config_set key data sdi).2.priv) := by
  unfold config_set
  refine ⟨?_, ?_, ?_, ?_⟩
  · intro h
    simp [h]
  · intro h
    simp [h, SR_CONF_LIMIT_SAMPLES, SR_CONF_SAMPLERATE]
  · intro h1 h2
    simp [h1, h2]
  · intro status
    by_cases h1 : key = SR_CONF_SAMPLERATE
    · simp [h1]
    · by_cases h2 : key = SR_CONF_LIMIT_SAMPLES
      · rw [if_neg h1, if_pos h2, if_neg h1, if_pos h2]
        exact ⟨rfl, rfl⟩
      · rw [if_neg h1, if_neg h2, if_neg h1, if_neg h2]
        exact ⟨rfl, rfl⟩

/-- C17: `scan` returns no device whenever the identification response does
not begin with the 22 characters of `HEWLETT PACKARD,16500B` (a shorter
response included), and whenever it returns a device the response begins with
them and the device is the only one returned. -/
theorem hp_scan_identification (sr_atoi : List Char → Option Int) (env : scan_env)
    (w : hp_world) (options : List sr_config) :
    IDN_STRING.length = 22 ∧
      (¬(IDN_STRING <+: c_str env.idn_read.2) →
        ∃ w', scan sr_atoi env w options = some ([], w')) ∧
      (∀ devices w', scan sr_atoi env w options = some (devices, w') → devices ≠ [] →
        IDN_STRING <+: c_str env.idn_read.2 ∧ devices.length = 1) := by
  have hlen : IDN_STRING.length = 22 := by decide
  have hcmp : strncmp (c_str env.idn_read.2) IDN_STRING 22 = 0
      ↔ IDN_STRING <+: c_str env.idn_read.2 := by
    rw [← hlen]
    exact strncmp_eq_zero_iff IDN_STRING (c_str env.idn_read.2)
  refine ⟨hlen, ?_, ?_⟩
  · intro hno
    have hne : strncmp (c_str env.idn_read.2) IDN_STRING 22 ≠ 0 := fun h => hno (hcmp.mp h)
    unfold scan
    simp only [request_id_buffer]
    split
    · exact ⟨_, rfl⟩
    · split
      · exact ⟨_, rfl⟩
      · split
        · exact ⟨_, rfl⟩
        · exact ⟨_, rfl⟩
  · intro devices w' hscan hdev
    unfold scan at hscan
    simp only [request_id_buffer] at hscan
    split at hscan
    · cases hscan
      exact absurd rfl hdev
    · split at hscan
      · cases hscan
        exact absurd rfl hdev
      · split at hscan
        · cases hscan
          exact absurd rfl hdev
        · split at hscan
          · cases hscan
            exact absurd rfl hdev
          · rename_i hzero
            split at hscan
            · cases hscan
            · cases hscan
              exact ⟨hcmp.mp (by simpa using hzero), rfl⟩

end Hp16500b

namespace Hp16500b

/-! ## The cardcage response -/

theorem strtok_all_intercalate (ts : List (List Char)) (hne : ts ≠ [])
    (hts : ∀ t ∈ ts, t ≠ [] ∧ ',' ∉ t) :
    strtok_all ([','].intercalate ts) = ts := by
  unfold strtok_all
  rw [List.splitOn_intercalate ts ',' (fun t ht => (hts t ht).2) hne]
  rw [List.filter_eq_self]
  intro t ht
  simpa using (hts t ht).1

theorem atoi_getD (sr_atoi : List Char → Option Int) (tokens : List (List Char))
    (vs : List Int) (hv : tokens.map sr_atoi = vs.map some) (k : Nat)
    (hk : k < tokens.length) :
    sr_atoi (tokens.getD k []) = some (vs.getD k 0) := by
  have hlen : tokens.length = vs.length := by
    simpa using congrArg List.length hv
  have h := congrArg (fun l => l[k]?) hv
  simp only [List.getElem?_map] at h
  rw [List.getD_eq_getElem?_getD, List.getD_eq_getElem?_getD]
  rw [List.getElem?_eq_getElem hk] at h ⊢
  rw [List.getElem?_eq_getElem (hlen ▸ hk)] at h ⊢
  simpa using h

theorem cardcage_slots_ok (sr_atoi : List Char → Option Int) (tokens : List (List Char))
    (vs : List Int) (half : Nat) (hv : tokens.map sr_atoi = vs.map some) :
    ∀ (count a : Nat) (cards : List hp_16500b_card),
      half + (a + count) ≤ tokens.length → a + count ≤ cards.length →
      (cardcage_slots sr_atoi tokens half count a cards).1 = SR_OK ∧
      ∀ k, (cardcage_slots sr_atoi tokens half count a cards).2[k]?
        = if a ≤ k ∧ k < a + count then
            some { type := vs.getD k 0, card_master := some (vs.getD (k + half) 0) }
          else cards[k]? := by
  intro count
  induction count with
  | zero =>
    intro a cards _ _
    refine ⟨rfl, fun k => ?_⟩
    have hno : ¬(a ≤ k ∧ k < a + 0) := by omega
    rw [if_neg hno]
    rfl
  | succ n ih =>
    intro a cards h1 h2
    have ha : a < tokens.length := by omega
    have hah : a + half < tokens.length := by omega
    have hac : a < cards.length := by omega
    unfold cardcage_slots
    simp only [atoi_getD sr_atoi tokens vs hv a ha, atoi_getD sr_atoi tokens vs hv (a + half) hah]
    have hih := ih (a + 1)
      ((cards.set a { cards.getD a { type := 0, card_master := none } with
          type := vs.getD a 0 }).set a
        { (cards.set a { cards.getD a { type := 0, card_master := none } with
            type := vs.getD a 0 }).getD a { type := 0, card_master := none } with
          card_master := some (vs.getD (a + half) 0) })
      (by omega) (by simp; omega)
    refine ⟨hih.1, fun k => ?_⟩
    rw [hih.2 k]
    by_cases hk : a = k
    · subst hk
      have c1 : ¬(a + 1 ≤ a ∧ a < a + 1 + n) := by omega
      have c2 : a ≤ a ∧ a < a + (n + 1) := by omega
      simp [c1, c2, hac, List.getD_eq_getElem?_getD]
    · by_cases hr : a + 1 ≤ k ∧ k < a + 1 + n
      · have c2 : a ≤ k ∧ k < a + (n + 1) := by omega
        simp [hr, c2]
      · have c2 : ¬(a ≤ k ∧ k < a + (n + 1)) := by omega
        simp [hr, c2, hk]

/-! ## Channel construction -/

theorem digit_char_ne_nul (d : Nat) : digit_char d ≠ NUL := by
  unfold digit_char
  have h : d % 10 < 10 := Nat.mod_lt _ (by decide)
  generalize d % 10 = m at h
  interval_cases m <;> decide

theorem fmt_d_aux_no_nul (fuel n : Nat) (acc : List Char) (hacc : ∀ c ∈ acc, c ≠ NUL) :
    ∀ c ∈ fmt_d_aux fuel n acc, c ≠ NUL := by
  induction fuel generalizing n acc with
  | zero => simpa [fmt_d_aux] using hacc
  | succ f ih =>
    unfold fmt_d_aux
    split
    · intro c hc
      rcases List.mem_cons.mp hc with h | h
      · exact h ▸ digit_char_ne_nul n
      · exact hacc c h
    · apply ih
      intro c hc
      rcases List.mem_cons.mp hc with h | h
      · exact h ▸ digit_char_ne_nul n
      · exact hacc c h

theorem fmt_d_no_nul (n : Nat) : ∀ c ∈ fmt_d n, c ≠ NUL :=
  fmt_d_aux_no_nul (n + 1) n [] (by simp)

theorem c_str_eq_self (l : List Char) (h : ∀ c ∈ l, c ≠ NUL) : c_str l = l := by
  unfold c_str
  rw [List.takeWhile_eq_self_iff]
  intro c hc
  simpa using h c hc

theorem letter_ne_nul (a : Nat) (ha : a < 25) : prefix_letters.getD a NUL ≠ NUL := by
  interval_cases a <;> decide

theorem table_names_no_nul :
    ∀ e ∈ supported_cards, ∀ c ∈ fmt_s e.name, c ≠ NUL := by
  decide

theorem logic_name_c_str (letter : Char) (hl : letter ≠ NUL) (i j : Nat) :
    c_str ([letter] ++ fmt_d i ++ ['['] ++ fmt_d j ++ [']'])
      = [letter] ++ fmt_d i ++ ['['] ++ fmt_d j ++ [']'] := by
  apply c_str_eq_self
  intro c hc
  simp only [List.mem_append, List.mem_singleton] at hc
  rcases hc with (((h | h) | h) | h) | h
  · exact h ▸ hl
  · exact fmt_d_no_nul i c h
  · rw [h]; decide
  · exact fmt_d_no_nul j c h
  · rw [h]; decide

theorem add_channels_logic (entry : hp_16500b_supported_card) (letter : Char) (i : Nat)
    (hlogic : entry.channel_type = SR_CHANNEL_LOGIC) (hl : letter ≠ NUL) :
    ∀ (count j : Nat) (sdi : sr_dev_inst) (channels : List sr_channel),
      add_channels entry letter i count j (sdi, channels)
        = ({ sdi with
              channels := sdi.channels ++ (List.range count).map
                (fun k => spec_logic_channel letter (i + 1) (j + k) (sdi.priv.num_channels + k))
              priv := { sdi.priv with num_channels := sdi.priv.num_channels + count } },
           ((List.range count).map
              (fun k => spec_logic_channel letter (i + 1) (j + k)
                (sdi.priv.num_channels + k))).reverse ++ channels) := by
  intro count
  induction count with
  | zero =>
    intro j sdi channels
    simp [add_channels]
  | succ n ih =>
    intro j sdi channels
    unfold add_channels
    simp only [hlogic, if_true, logic_name_c_str letter hl, sr_channel_new]
    rw [ih]
    have hf : ∀ k, spec_logic_channel letter (i + 1) (j + 1 + k) (sdi.priv.num_channels + 1 + k)
        = spec_logic_channel letter (i + 1) (j + (k + 1)) (sdi.priv.num_channels + (k + 1)) := by
      intro k
      rw [Nat.add_assoc j 1 k, Nat.add_comm 1 k, Nat.add_assoc _ 1 k, Nat.add_comm 1 k]
    simp only [hf]
    rw [List.range_succ_eq_map, List.map_cons, List.map_map]
    simp [spec_logic_channel, Function.comp, Nat.add_assoc, Nat.add_comm 1]

theorem group_name_c_str (cardname : Option (List Char)) (letter : Char) (hl : letter ≠ NUL)
    (hname : ∀ c ∈ fmt_s cardname, c ≠ NUL) (i : Nat) :
    c_str (fmt_s cardname ++ ['_'] ++ [letter] ++ fmt_d i)
      = fmt_s cardname ++ ['_'] ++ [letter] ++ fmt_d i := by
  apply c_str_eq_self
  intro c hc
  simp only [List.mem_append, List.mem_singleton] at hc
  rcases hc with ((h | h) | h) | h
  · exact hname c h
  · rw [h]; decide
  · exact h ▸ hl
  · exact fmt_d_no_nul i c h

theorem range_succ_flatMap {α : Type} (F : Nat → List α) (n : Nat) :
    (List.range (n + 1)).flatMap F = F 0 ++ (List.range n).flatMap (fun k => F (k + 1)) := by
  rw [List.range_succ_eq_map, List.flatMap_cons, List.flatMap_map]

theorem range_succ_map {α : Type} (F : Nat → α) (n : Nat) :
    (List.range (n + 1)).map F = F 0 :: (List.range n).map (fun k => F (k + 1)) := by
  rw [List.range_succ_eq_map, List.map_cons, List.map_map]
  rfl

theorem add_groups_logic (entry : hp_16500b_supported_card) (letter : Char) (c : Nat)
    (hlogic : entry.channel_type = SR_CHANNEL_LOGIC) (hl : letter ≠ NUL)
    (hname : ∀ ch ∈ fmt_s entry.name, ch ≠ NUL)
    (hc : entry.num_channels_per_group.toNat = c) :
    ∀ (count i : Nat) (sdi : sr_dev_inst),
      add_groups entry letter count i sdi
        = { sdi with
            channels := sdi.channels ++ (List.range count).flatMap
              (fun k => spec_logic_channels letter (i + k + 1) c (sdi.priv.num_channels + k * c))
            channel_groups := sdi.channel_groups ++ (List.range count).map
              (fun k =>
                { name := fmt_s entry.name ++ ['_'] ++ [letter] ++ fmt_d (i + k + 1),
                  channels :=
                    spec_logic_channels letter (i + k + 1) c (sdi.priv.num_channels + k * c) })
            priv := { sdi.priv with num_channels := sdi.priv.num_channels + count * c } } := by
  intro count
  induction count with
  | zero =>
    intro i sdi
    simp [add_groups]
  | succ n ih =>
    intro i sdi
    unfold add_groups
    simp only [hlogic, if_true, hc, add_channels_logic entry letter i hlogic hl,
      group_name_c_str entry.name letter hl hname, List.append_nil, List.reverse_reverse]
    rw [ih]
    have e1 : ∀ k, i + 1 + k + 1 = i + (k + 1) + 1 := by intro k; omega
    have e2 : ∀ k, sdi.priv.num_channels + c + k * c = sdi.priv.num_channels + (k + 1) * c := by
      intro k
      rw [Nat.succ_mul]
      omega
    have e3 : sdi.priv.num_channels + c + n * c = sdi.priv.num_channels + (n + 1) * c := e2 n
    simp only [e1, e2, e3, range_succ_flatMap, range_succ_map, spec_logic_channels,
      Nat.zero_add, Nat.add_zero, Nat.zero_mul, List.append_assoc, List.singleton_append]

end Hp16500b

namespace Hp16500b

/-! ## Properties of discovery -/

theorem supported_card_mem (type : Int) (entry : hp_16500b_supported_card)
    (h : supported_card type = some entry) : entry ∈ supported_cards := by
  unfold supported_card at h
  split at h
  · exact List.get?_mem h
  · cases h

/-- C18: for every cardcage response made of 2n comma-separated tokens that
`sr_atoi` parses, with 1 <= n <= 10, `hp_16500b_process_cardcage` returns
`SR_OK`; slot a < n gets the value of token a as its type and the slot
numbered by the value of token a + n as its master, and the slots from n on
are left as they were. -/
theorem hp_process_cardcage_pairs (sr_atoi : List Char → Option Int)
    (ts : List (List Char)) (vs : List Int) (n : Nat) (cards : List hp_16500b_card)
    (hn1 : 1 ≤ n) (hn10 : n ≤ 10) (hlen : ts.length = 2 * n)
    (hts : ∀ t ∈ ts, t ≠ [] ∧ ',' ∉ t)
    (hv : ts.map sr_atoi = vs.map some)
    (hcards : cards.length = MAX_CARDSLOTS) :
    (hp_16500b_process_cardcage sr_atoi ([','].intercalate ts) cards).1 = SR_OK ∧
      (∀ a, a < n →
        (hp_16500b_process_cardcage sr_atoi ([','].intercalate ts) cards).2[a]?
          = some { type := vs.getD a 0, card_master := some (vs.getD (a + n) 0) }) ∧
      (∀ a, n ≤ a →
        (hp_16500b_process_cardcage sr_atoi ([','].intercalate ts) cards).2[a]?
          = cards[a]?) := by
  have hne : ts ≠ [] := by
    intro h
    rw [h] at hlen
    simp at hlen
    omega
  have htake : ts.take 20 = ts := List.take_of_length_le (by omega)
  have hhalf : ts.length / 2 = n := by omega
  unfold hp_16500b_process_cardcage
  simp only [strtok_all_intercalate ts hne hts, htake, hhalf]
  have hc10 : cards.length = 10 := hcards
  obtain ⟨hok, hk⟩ := cardcage_slots_ok sr_atoi ts vs n hv n 0 cards (by omega) (by omega)
  refine ⟨hok, fun a ha => ?_, fun a ha => ?_⟩
  · rw [hk a, if_pos ⟨Nat.zero_le a, by omega⟩]
  · rw [hk a, if_neg (by omega)]

theorem hp_process_cardcage_pairs_witness :
    (1 ≤ 5 ∧ 5 ≤ 10 ∧ sample_cage_tokens.length = 2 * 5) ∧
    (∀ t ∈ sample_cage_tokens, t ≠ [] ∧ ',' ∉ t) ∧
    sample_cage_tokens.map sample_atoi = sample_cage_values.map some ∧
    [','].intercalate sample_cage_tokens = "11,12,0,0,0,3,3,3,3,3".toList ∧
    (hp_16500b_process_cardcage sample_atoi "11,12,0,0,0,3,3,3,3,3".toList sample_cards).2.take 5
      = [{ type := 11, card_master := some 3 }, { type := 12, card_master := some 3 },
         { type := 0, card_master := some 3 }, { type := 0, card_master := some 3 },
         { type := 0, card_master := some 3 }] ∧
    ((hp_16500b_process_cardcage sample_atoi ([','].intercalate sample_cage_tokens)
        sample_cards).1 = SR_OK ∧
      (∀ a, a < 5 →
        (hp_16500b_process_cardcage sample_atoi ([','].intercalate sample_cage_tokens)
            sample_cards).2[a]?
          = some { type := sample_cage_values.getD a 0,
                   card_master := some (sample_cage_values.getD (a + 5) 0) }) ∧
      (∀ a, 5 ≤ a →
        (hp_16500b_process_cardcage sample_atoi ([','].intercalate sample_cage_tokens)
            sample_cards).2[a]?
          = sample_cards[a]?)) :=
  ⟨by decide, by decide, by decide, by decide, by decide,
    hp_process_cardcage_pairs sample_atoi sample_cage_tokens sample_cage_values 5 sample_cards
      (by decide) (by decide) (by decide) (by decide) (by decide) (by decide)⟩

/-- C19: for a card type whose table entry has g groups of c channels of
kind LOGIC, `hp_16500b_process_card` with the letter counter at a < 25 takes
the letter L at position a, appends exactly g channel groups in order, group i
(from 1) holding in order the c channels named L<i>[0] .. L<i>[c-1], and
raises the channel count by g * c, the new channels getting the consecutive
indices from the old count on. -/
theorem hp_process_card_logic (a : Nat) (sdi : sr_dev_inst) (card : hp_16500b_card)
    (entry : hp_16500b_supported_card) (g c : Nat)
    (hentry : supported_card card.type = some entry)
    (hlogic : entry.channel_type = SR_CHANNEL_LOGIC)
    (hg : entry.num_channel_groups = (g : Int))
    (hc : entry.num_channels_per_group = (c : Int))
    (ha : a < 25) :
    ∃ sdi', hp_16500b_process_card a sdi card = some (SR_OK, a + 1, sdi') ∧
      sdi'.channel_groups = sdi.channel_groups ++
        spec_logic_groups entry.name (prefix_letters.getD a NUL) g c sdi.priv.num_channels ∧
      sdi'.priv.num_channels = sdi.priv.num_channels + g * c ∧
      sdi'.channels = sdi.channels ++
        (spec_logic_groups entry.name (prefix_letters.getD a NUL) g c
          sdi.priv.num_channels).flatMap (fun cg => cg.channels) := by
  have hname := table_names_no_nul entry (supported_card_mem card.type entry hentry)
  have hl := letter_ne_nul a ha
  have hgne : entry.num_channel_groups ≠ -1 := by omega
  have hgn : entry.num_channel_groups.toNat = g := by omega
  have hcn : entry.num_channels_per_group.toNat = c := by omega
  have ha25 : ¬a > 25 := by omega
  unfold hp_16500b_process_card
  simp only [hentry, hgne, ne_eq, not_false_eq_true, if_true, hp_16500b_get_next_channel_letter,
    ha25, if_false, hgn,
    add_groups_logic entry (prefix_letters.getD a NUL) c hlogic hl hname hcn g 0 sdi]
  refine ⟨_, rfl, ?_, rfl, ?_⟩
  · simp [spec_logic_groups]
  · simp [spec_logic_groups, List.flatMap_map]

theorem hp_process_card_logic_witness :
    supported_card sample_card_16515A.type
        = some { num_channel_groups := 2, num_channels_per_group := 9,
                 channel_type := SR_CHANNEL_LOGIC, supported_max_sample_rate := 0,
                 name := some "16515A".toList } ∧
      (hp_16500b_process_card 0 (sample_hp_sdi 0) sample_card_16515A).map
          (fun r => (r.1, r.2.1, r.2.2.priv.num_channels, r.2.2.channels.map (fun ch => ch.index),
            r.2.2.channel_groups.map (fun cg => (cg.name, cg.channels.map (fun ch => ch.name)))))
        = some (SR_OK, 1, 18, List.range 18,
            [("16515A_A1".toList,
              ["A1[0]".toList, "A1[1]".toList, "A1[2]".toList, "A1[3]".toList, "A1[4]".toList,
               "A1[5]".toList, "A1[6]".toList, "A1[7]".toList, "A1[8]".toList]),
             ("16515A_A2".toList,
              ["A2[0]".toList, "A2[1]".toList, "A2[2]".toList, "A2[3]".toList, "A2[4]".toList,
               "A2[5]".toList, "A2[6]".toList, "A2[7]".toList, "A2[8]".toList])]) ∧
      ∃ sdi', hp_16500b_process_card 0 (sample_hp_sdi 0) sample_card_16515A
          = some (SR_OK, 0 + 1, sdi') ∧
        sdi'.channel_groups = (sample_hp_sdi 0).channel_groups ++
          spec_logic_groups (some "16515A".toList) (prefix_letters.getD 0 NUL) 2 9
            (sample_hp_sdi 0).priv.num_channels ∧
        sdi'.priv.num_channels = (sample_hp_sdi 0).priv.num_channels + 2 * 9 ∧
        sdi'.channels = (sample_hp_sdi 0).channels ++
          (spec_logic_groups (some "16515A".toList) (prefix_letters.getD 0 NUL) 2 9
            (sample_hp_sdi 0).priv.num_channels).flatMap (fun cg => cg.channels) :=
  ⟨by decide, rfl,
    hp_process_card_logic 0 (sample_hp_sdi 0) sample_card_16515A
      { num_channel_groups := 2, num_channels_per_group := 9,
        channel_type := SR_CHANNEL_LOGIC, supported_max_sample_rate := 0,
        name := some "16515A".toList } 2 9 (by decide) (by decide) (by decide) (by decide)
      (by decide)⟩

/-- C20 fails on the code: the counter of `hp_16500b_get_next_channel_letter`
is static and never reset, whereas the channel count is set to zero at every
discovery.  A first discovery on the response `1,2,0,0,0,0,0,0,0,0` leaves the
counter at 2 and names the groups with the letters A and B; a second
discovery on the same response, from that counter, names them with C and D,
and its first channel is `C1[0]` where the first run had `A1[0]`. -/
theorem hp_discovery_letters_not_reset :
    (hp_16500b_get_metadata sample_atoi 0 sample_cage_two_cards).map
        (fun r => (r.1, r.2.channel_groups.map (fun cg => cg.name),
          (r.2.channels.map (fun ch => ch.name)).take 1, r.2.priv.num_channels))
      = some (2, ["16515A_A1".toList, "16515A_A2".toList, "16516A_B1".toList,
            "16516A_B2".toList], ["A1[0]".toList], 36) ∧
    (hp_16500b_get_metadata sample_atoi 2 sample_cage_two_cards).map
        (fun r => (r.1, r.2.channel_groups.map (fun cg => cg.name),
          (r.2.channels.map (fun ch => ch.name)).take 1, r.2.priv.num_channels))
      = some (4, ["16515A_C1".toList, "16515A_C2".toList, "16516A_D1".toList,
            "16516A_D2".toList], ["C1[0]".toList], 36) ∧
    ((scan sample_atoi (sample_scan_env IDN_STRING sample_cage_two_cards) sample_hp_world
        [{ key := SR_CONF_CONN, data := "/dev/ttyS0".toList }]).bind
      (fun r1 =>
        (scan sample_atoi (sample_scan_env IDN_STRING sample_cage_two_cards) r1.2
          [{ key := SR_CONF_CONN, data := "/dev/ttyS0".toList }]).map
        (fun r2 =>
          (r1.1.map (fun d => d.channel_groups.map (fun cg => cg.name)),
           r2.1.map (fun d => d.channel_groups.map (fun cg => cg.name))))))
      = some ([["16515A_A1".toList, "16515A_A2".toList, "16516A_B1".toList,
              "16516A_B2".toList]],
            [["16515A_C1".toList, "16515A_C2".toList, "16516A_D1".toList,
              "16516A_D2".toList]]) := by
  refine ⟨?_, ?_, ?_⟩ <;> rfl

end Hp16500b

namespace Backend

/-! ## Library initialisation -/

/-- C21: with `libusb_init` returning 0 or a negative libusb error code,
`sr_init` returns `SR_OK` exactly when its ctx argument is non-NULL, the
context allocation succeeds and, where libusb is compiled in, `libusb_init`
succeeds; then `*ctx` holds the newly created context.  In every other case
the return code is negative and `*ctx` is not written. -/
theorem sr_init_result (have_libusb : Bool) (env : init_env)
    (ctx : Option (Option sr_context)) (hlib : env.libusb_ret ≤ 0) :
    ((sr_init have_libusb env ctx).1 = SR_OK ↔
        ctx ≠ none ∧ env.malloc_ok = true ∧
          (have_libusb = true → env.libusb_ret = LIBUSB_SUCCESS)) ∧
      ((sr_init have_libusb env ctx).1 = SR_OK →
        (sr_init have_libusb env ctx).2
          = some (some { libusb_ctx := if have_libusb then some env.libusb_ctx else none })) ∧
      ((sr_init have_libusb env ctx).1 ≠ SR_OK →
        (sr_init have_libusb env ctx).1 < 0 ∧ (sr_init have_libusb env ctx).2 = ctx) := by
  unfold sr_init
  cases ctx with
  | none => simp [SR_OK, SR_ERR]
  | some target =>
    cases hm : env.malloc_ok with
    | false => simp [SR_OK, SR_ERR_MALLOC]
    | true =>
      cases have_libusb with
      | false => simp [SR_OK]
      | true =>
        by_cases hr : env.libusb_ret = 0
        · simp [hr, SR_OK, LIBUSB_SUCCESS]
        · have hneg : env.libusb_ret < 0 := by omega
          have hne : ¬(0 = env.libusb_ret) := fun h => hr h.symm
          simp [hr, hne, hneg, SR_OK, LIBUSB_SUCCESS]

theorem sr_init_result_witness :
    sample_init_env.libusb_ret ≤ 0 ∧
      (sr_init true sample_init_env (some none)).1 = SR_OK ∧
      (sr_init true sample_init_env (some none)).2 = some (some { libusb_ctx := some 1 }) ∧
      ((sr_init true sample_init_env (some none)).1 = SR_OK ↔
        (some none : Option (Option sr_context)) ≠ none ∧ sample_init_env.malloc_ok = true ∧
          (true = true → sample_init_env.libusb_ret = LIBUSB_SUCCESS)) :=
  ⟨by decide, by decide, by decide,
    (sr_init_result true sample_init_env (some none) (by decide)).1⟩

end Backend

namespace Hp16500b

/-! ## Configuration read-back and table lookups -/

theorem config_get_code (key : Int) (data : Option gvariant) (sdi : Option sr_dev_inst)
    (r : Int × Option gvariant) (h : config_get key data sdi = some r) :
    r.1 = SR_ERR_NA ∨ r.1 = SR_ERR_ARG := by
  unfold config_get at h
  cases sdi with
  | none =>
    cases h
    exact Or.inr rfl
  | some s =>
    left
    dsimp only at h
    by_cases h1 : key = SR_CONF_CAPTURE_RATIO
    · rw [if_pos h1] at h
      cases h
      rfl
    rw [if_neg h1] at h
    by_cases h2 : key = SR_CONF_LIMIT_SAMPLES
    · rw [if_pos h2] at h
      cases h
      rfl
    rw [if_neg h2] at h
    by_cases h3 : key = SR_CONF_NUM_HDIV
    · rw [if_pos h3] at h
      cases h
      rfl
    rw [if_neg h3] at h
    by_cases h4 : key = SR_CONF_NUM_VDIV
    · rw [if_pos h4] at h
      cases h
      rfl
    rw [if_neg h4] at h
    by_cases h5 : key = SR_CONF_SAMPLERATE
    · rw [if_pos h5] at h
      cases h
      rfl
    rw [if_neg h5] at h
    by_cases h6 : key = SR_CONF_TRIGGER_SOURCE
    · rw [if_pos h6] at h
      cases hs : s.priv.trigger_source with
      | none =>
        rw [hs] at h
        cases h
      | some source =>
        rw [hs] at h
        cases h
        rfl
    rw [if_neg h6] at h
    by_cases h7 : key = SR_CONF_TRIGGER_SLOPE
    · rw [if_pos h7] at h
      cases hs : s.priv.trigger_slope with
      | none =>
        rw [hs] at h
        cases h
      | some slope =>
        rw [hs] at h
        dsimp only at h
        split at h
        · cases h
          rfl
        · split at h
          · cases h
            rfl
          · cases h
            rfl
    rw [if_neg h7] at h
    cases h
    rfl

/-- C22 fails on the code: every `break` of the switch in `config_get` falls
to the `return SR_ERR_NA` of api.c 266-267.  After `config_set` of
LIMIT_SAMPLES to 4096 has returned `SR_OK`, `config_get` of LIMIT_SAMPLES
stores 4096 in `*data` and returns `SR_ERR_NA`; each of the seven keys with a
case returns `SR_ERR_NA`; and no call of `config_get` returns `SR_OK`. -/
theorem hp_config_get_never_succeeds :
    (config_set SR_CONF_LIMIT_SAMPLES 4096 (sample_hp_sdi SR_ST_ACTIVE)).1 = SR_OK ∧
      config_get SR_CONF_LIMIT_SAMPLES none
          (some (config_set SR_CONF_LIMIT_SAMPLES 4096 (sample_hp_sdi SR_ST_ACTIVE)).2)
        = some (SR_ERR_NA, some (gvariant.uint64 4096)) ∧
      [ SR_CONF_CAPTURE_RATIO, SR_CONF_LIMIT_SAMPLES, SR_CONF_NUM_HDIV, SR_CONF_NUM_VDIV,
          SR_CONF_SAMPLERATE, SR_CONF_TRIGGER_SOURCE, SR_CONF_TRIGGER_SLOPE].map
          (fun key => (config_get key none (some sample_hp_sdi_triggers)).map (fun r => r.1))
        = List.replicate 7 (some SR_ERR_NA) ∧
      ∀ (key : Int) (data : Option gvariant) (sdi : Option sr_dev_inst)
        (r : Int × Option gvariant), config_get key data sdi = some r → r.1 ≠ SR_OK := by
  refine ⟨by decide, by decide, by decide, ?_⟩
  intro key data sdi r h
  rcases config_get_code key data sdi r h with h1 | h1 <;> rw [h1] <;> decide

theorem supported_card_in_table (type : Int) :
    supported_card type ≠ none ↔ 0 ≤ type ∧ type < 44 := by
  have hlen : supported_cards.length = 44 := by decide
  unfold supported_card
  split
  · rename_i h0
    rw [Ne, List.get?_eq_none, hlen]
    omega
  · rename_i h0
    simp [h0]

/-- C23 fails on the code: the card type taken from the response is used as
the table index with no bounds test.  The response `50,-1,0,0` stores the
types 50 and -1; `hp_16500b_process_card` then reads `supported_cards` outside
its 44 entries for both, `hp_16500b_lookup_cardname` and
`hp_16500b_card_get_max_sample_depth` do so for 50 (the latter tests only for
-1), and discovery as a whole has no defined result.  A read is inside the
table exactly for the types 0..43. -/
theorem hp_card_table_index_unchecked :
    (hp_16500b_process_cardcage sample_atoi "50,-1,0,0".toList sample_cards).2.take 2
        = [{ type := 50, card_master := some 0 }, { type := -1, card_master := some 0 }] ∧
      supported_cards.length = 44 ∧
      hp_16500b_process_card 0 (sample_hp_sdi 0) { type := 50, card_master := some 0 } = none ∧
      hp_16500b_process_card 0 (sample_hp_sdi 0) { type := -1, card_master := some 0 } = none ∧
      hp_16500b_lookup_cardname 50 = none ∧
      hp_16500b_card_get_max_sample_depth { type := 50, card_master := some 0 } = none ∧
      hp_16500b_card_get_max_sample_depth { type := -1, card_master := some 0 } = some 0 ∧
      hp_16500b_get_metadata sample_atoi 0 "50,-1,0,0".toList = none ∧
      ∀ type : Int, supported_card type ≠ none ↔ 0 ≤ type ∧ type < 44 := by
  refine ⟨by decide, by decide, by decide, by decide, by decide, by decide, by decide,
    by decide, supported_card_in_table⟩

end Hp16500b
